import Mathlib

/-!
Verification development for the gumroad-scraper repository.

Shallow embedding of the parts of the code the claims talk about:

* `src/models.py` : `ProductSnapshot.compute_hash` (C1);
* `src/pipeline.py` : `PipelineDatabase.compute_diffs`, `_previous_snapshot`,
  `_delta` (C2);
* `src/gumroad_scraper.py` : `parse_price`, `parse_rating`, `is_pwyw_price`,
  `CURRENCY_TO_USD` (C3, C6, C8, C10);
* `src/opportunity_engine.py` : `compute_velocity_score`,
  `compute_price_to_value_score`, `compute_novelty_score`,
  `compute_copyability_score`, `compute_saturation_penalty`,
  `infer_confidence`, `assemble_opportunity`, `detect_alerts`, and the
  defaults of `load_config` (C4, C5, C7);
* `src/scripts/full_gumroad_scrape.py` : `AdaptiveDelayConfig`,
  `_scrape_with_retry` (C9).

Modelling conventions:

* Python floats are modelled as exact rationals (`ℚ`); `round(x, 2)` is
  modelled by `round2` (round-half-to-even on exact rationals, as Python's
  `round` is); binary floating point representation artifacts are out of
  scope.
* Python `datetime` values are modelled as a totally ordered timestamp
  (`ℚ` where only the order matters, a `String` where only the `isoformat`
  serialization matters).
* A function that can raise (`float(...)` raising `ValueError`,
  `ZeroDivisionError`) is modelled with `Option`, `none` being the raise.
* Division on `ℚ` is written with `pyDiv` (multiplication by
  `Rat.divInt den num`) rather than `/` so that every definition evaluates
  by kernel reduction; `pyDiv_eq_div` proves it is ordinary division.
-/

set_option maxRecDepth 4096

namespace Gumroad

/-! ## Python-style primitives -/

/-- Characters matched by Python's `str.split()` / `str.strip()` / regex `\s`. -/
def isPySpace (c : Char) : Bool :=
  c = ' ' || c = '\t' || c = '\n' || c = '\r' || c = '\x0b' || c = '\x0c'

/-- Python `str.strip()`: drop leading and trailing whitespace. -/
def pyStrip (l : List Char) : List Char :=
  ((l.dropWhile isPySpace).reverse.dropWhile isPySpace).reverse

/-- Python `str.lower()` (ASCII letters; the inputs at issue are ASCII or symbols). -/
def pyLower (l : List Char) : List Char := l.map Char.toLower

/-- Python `str.split()` with no argument: maximal non-whitespace runs. -/
def pyWords (l : List Char) : List (List Char) :=
  (l.splitOnP isPySpace).filter (fun w => w ≠ [])

/-- `' '.join(ws)`. -/
def joinSpace (ws : List (List Char)) : List Char := List.intercalate [' '] ws

/-- Python `min` on two numbers (returns the first argument on ties). -/
def pyMin (a b : ℚ) : ℚ := if a ≤ b then a else b

/-- Python `max` on two numbers (returns the first argument on ties). -/
def pyMax (a b : ℚ) : ℚ := if b ≤ a then a else b

/-- Exact rational addition, spelled through the `mkRat` smart constructor so
that every definition below evaluates by kernel reduction (the library's
`Rat.add` is `@[irreducible]`); `ratAdd_eq` proves it is ordinary `+`. -/
def ratAdd (a b : ℚ) : ℚ := mkRat (a.num * b.den + b.num * a.den) (a.den * b.den)

/-- Exact rational subtraction; `ratSub_eq` proves it is ordinary `-`. -/
def ratSub (a b : ℚ) : ℚ := mkRat (a.num * b.den - b.num * a.den) (a.den * b.den)

/-- Exact rational multiplication; `ratMul_eq` proves it is ordinary `*`. -/
def ratMul (a b : ℚ) : ℚ := mkRat (a.num * b.num) (a.den * b.den)

/-- Exact rational division, written so that it evaluates by kernel reduction.
`pyDiv_eq_div` shows it is ordinary division on `ℚ` (in particular
`pyDiv a 0 = 0`; the embedding never divides by zero on Python-reachable
paths, see the individual definitions). -/
def pyDiv (a b : ℚ) : ℚ := ratMul a (Rat.divInt b.den b.num)

/-- Python `abs` on a number. -/
def pyAbs (a : ℚ) : ℚ := if a < 0 then -a else a

/-- Python `round(q)` on an exact rational: round half to even. -/
def pyRound (q : ℚ) : ℤ :=
  let f := q.floor
  let r := ratSub q (f : ℚ)
  if r < mkRat 1 2 then f
  else if mkRat 1 2 < r then f + 1
  else if f % 2 = 0 then f else f + 1

/-- Python `round(q, 2)` on an exact rational. -/
def round2 (q : ℚ) : ℚ := Rat.divInt (pyRound (ratMul q 100)) 100

/-- Numeric value of a digit string (Python `int` on a matched `\d+` group). -/
def digitsVal (l : List Char) : ℕ :=
  l.foldl (fun a c => a * 10 + (c.toNat - 48)) 0

/-- Python `float(s)` restricted to strings drawn from `[\d.,]` matches with the
commas already removed: succeeds iff there is at least one digit and at most
one dot. `none` models a raised `ValueError`. -/
def pyFloat? (l : List Char) : Option ℚ :=
  if l.any Char.isDigit && l.all (fun c => c.isDigit || c = '.') &&
      decide (l.count '.' ≤ 1) then
    let ip := l.takeWhile Char.isDigit
    let fp := (l.dropWhile Char.isDigit).drop 1
    some (mkRat (digitsVal ip * 10 ^ fp.length + digitsVal fp) (10 ^ fp.length))
  else none

/-- Python `pat in hay` for strings. -/
def listContains (hay pat : List Char) : Bool :=
  if pat.isPrefixOf hay then true
  else
    match hay with
    | [] => false
    | _ :: t => listContains t pat

/-- Does `p` hold of some suffix of `l` (i.e. does a match start at some position)? -/
def anyPosition (p : List Char → Bool) : List Char → Bool
  | [] => p []
  | c :: t => p (c :: t) || anyPosition p t

/-- Leftmost-position search: first suffix of `l` on which `f` yields a match
(`re.search` tries every start position from the left). -/
def scanPositions {β : Type} (f : List Char → Option β) : List Char → Option β
  | [] => f []
  | c :: t =>
    match f (c :: t) with
    | some r => some r
    | none => scanPositions f t

/-- First index whose suffix satisfies `p` (used for `re.sub` truncation points). -/
def firstIdxWhere (p : List Char → Bool) : List Char → Option ℕ
  | [] => if p [] then some 0 else none
  | c :: t => if p (c :: t) then some 0 else (firstIdxWhere p t).map (fun i => i + 1)

/-- One `re.sub` pass: at each position try `m`; on a match `(n, rep)` with
`n` consumed characters emit `rep` and continue after the match, otherwise
move one character right. Structured on a fuel argument (one unit per
emitted position) so that it evaluates by kernel reduction; `runSub` supplies
enough fuel that it never runs dry. -/
def substFuel (m : List Char → Option (ℕ × List Char)) : ℕ → List Char → List Char
  | 0, l => l
  | _, [] => []
  | fuel + 1, c :: t =>
    match m (c :: t) with
    | some (n, rep) =>
      if n = 0 then c :: substFuel m fuel t
      else rep ++ substFuel m fuel ((c :: t).drop n)
    | none => c :: substFuel m fuel t

/-- `re.sub` with matcher `m` over the whole string. -/
def runSub (m : List Char → Option (ℕ × List Char)) (l : List Char) : List Char :=
  substFuel m l.length l

/-! ## `src/models.py` : `ProductSnapshot` and `compute_hash` (C1)

`compute_hash` serializes `to_dict()` (every dataclass field, with
`scraped_at` replaced by its `isoformat()` string), pops `raw_source_hash`,
JSON-dumps with sorted keys and applies SHA-256.  JSON serialization with
sorted keys is injective on the field record, and we model the SHA-256
digest as collision-free, so the digest is modelled as the record of all
serialized fields themselves (`SnapshotDigest`): two snapshots get the same
digest exactly when they agree on every field other than `raw_source_hash`. -/

/-- Field-for-field model of the `ProductSnapshot` dataclass
(`src/models.py`).  `scraped_at` is the `isoformat()` timestamp string
(which is what `to_dict` serializes); numeric fields are exact rationals. -/
structure ProductSnapshot where
  platform : String
  product_id : String
  url : String
  title : String
  creator_name : String
  creator_url : Option String
  category : Option String
  price_amount : Option ℚ
  price_currency : Option String
  price_is_pwyw : Bool
  rating_avg : Option ℚ
  rating_count : Option ℤ
  sales_count : Option ℤ
  revenue_estimate : Option ℚ
  revenue_confidence : String
  subcategory : Option String := none
  description : Option String := none
  mixed_review_count : Option ℤ := none
  mixed_review_percent : Option ℚ := none
  tags : List String := []
  scraped_at : String
  raw_source_hash : String := ""
deriving DecidableEq

/-- The SHA-256 digest of the sorted-keys JSON dump of `to_dict()` minus the
popped `raw_source_hash` key, modelled injectively: the digest is represented
by the record of serialized fields (every field except `raw_source_hash`,
including `scraped_at`). -/
structure SnapshotDigest where
  platform : String
  product_id : String
  url : String
  title : String
  creator_name : String
  creator_url : Option String
  category : Option String
  price_amount : Option ℚ
  price_currency : Option String
  price_is_pwyw : Bool
  rating_avg : Option ℚ
  rating_count : Option ℤ
  sales_count : Option ℤ
  revenue_estimate : Option ℚ
  revenue_confidence : String
  subcategory : Option String
  description : Option String
  mixed_review_count : Option ℤ
  mixed_review_percent : Option ℚ
  tags : List String
  scraped_at : String
deriving DecidableEq

/-- `ProductSnapshot.compute_hash` (src/models.py lines 54-59): serialize
`to_dict()` (which includes `scraped_at.isoformat()`), pop only
`raw_source_hash`, and hash. -/
def ProductSnapshot.compute_hash (s : ProductSnapshot) : SnapshotDigest :=
  { platform := s.platform
    product_id := s.product_id
    url := s.url
    title := s.title
    creator_name := s.creator_name
    creator_url := s.creator_url
    category := s.category
    price_amount := s.price_amount
    price_currency := s.price_currency
    price_is_pwyw := s.price_is_pwyw
    rating_avg := s.rating_avg
    rating_count := s.rating_count
    sales_count := s.sales_count
    revenue_estimate := s.revenue_estimate
    revenue_confidence := s.revenue_confidence
    subcategory := s.subcategory
    description := s.description
    mixed_review_count := s.mixed_review_count
    mixed_review_percent := s.mixed_review_percent
    tags := s.tags
    scraped_at := s.scraped_at }

/-! ## `src/pipeline.py` : snapshot rows, `_previous_snapshot`, `_delta`,
`compute_diffs` (C2) -/

/-- A persisted `product_snapshots` row (`ProductSnapshotRow` in
src/pipeline.py).  `scraped_at` is a totally ordered timestamp;
`raw_source_hash` is the stored hash string, only compared for equality. -/
structure ProductSnapshotRow where
  platform : String
  product_id : String
  run_id : String
  url : String
  title : String
  creator_name : String
  creator_url : Option String
  category : Option String
  price_amount : Option ℚ
  price_currency : Option String
  price_is_pwyw : Bool
  rating_avg : Option ℚ
  rating_count : Option ℚ
  sales_count : Option ℚ
  revenue_estimate : Option ℚ
  revenue_confidence : String
  tags : List String
  scraped_at : ℚ
  raw_source_hash : String
deriving DecidableEq

/-- A `product_diffs` row (`ProductDiff` in src/pipeline.py).  The
`computed_at` wall-clock column is omitted (it carries no information about
the diff computation). -/
structure ProductDiff where
  platform : String
  product_id : String
  run_id : String
  previous_run_id : Option String
  price_delta : Option ℚ
  rating_count_delta : Option ℚ
  sales_count_delta : Option ℚ
  revenue_delta : Option ℚ
  raw_source_changed : Bool
deriving DecidableEq

/-- `_delta` (src/pipeline.py lines 442-445): `None` if either side is
missing, else `round(current - previous, 2)`. -/
def _delta (previous current : Option ℚ) : Option ℚ :=
  match previous, current with
  | some p, some c => some (round2 (ratSub c p))
  | _, _ => none

/-- The filter of `_previous_snapshot`'s query: same platform and product,
a different run, scraped no later than the current snapshot. -/
def qualifiesAsPrevious (snap r : ProductSnapshotRow) : Bool :=
  r.platform == snap.platform && r.product_id == snap.product_id &&
    r.run_id != snap.run_id && decide (r.scraped_at ≤ snap.scraped_at)

/-- `order_by(scraped_at.desc()).first()`: the row with the largest
`scraped_at` (ties broken by list position; the source leaves the tiebreak
to the database engine). -/
def pickLatest : List ProductSnapshotRow → Option ProductSnapshotRow
  | [] => none
  | r :: t =>
    some
      (match pickLatest t with
      | none => r
      | some b => if b.scraped_at < r.scraped_at then r else b)

/-- `PipelineDatabase._previous_snapshot` (src/pipeline.py lines 278-289). -/
def _previous_snapshot (store : List ProductSnapshotRow)
    (snap : ProductSnapshotRow) : Option ProductSnapshotRow :=
  pickLatest (store.filter (qualifiesAsPrevious snap))

/-- The body of `compute_diffs`'s per-snapshot loop (src/pipeline.py lines
295-323): deltas and previous-run reference if a previous snapshot exists,
all-`None` deltas otherwise. -/
def diffRowFor (store : List ProductSnapshotRow) (run_id : String)
    (snap : ProductSnapshotRow) : ProductDiff :=
  match _previous_snapshot store snap with
  | none =>
    { platform := snap.platform
      product_id := snap.product_id
      run_id := run_id
      previous_run_id := none
      price_delta := none
      rating_count_delta := none
      sales_count_delta := none
      revenue_delta := none
      raw_source_changed := false }
  | some previous =>
    { platform := snap.platform
      product_id := snap.product_id
      run_id := run_id
      previous_run_id := some previous.run_id
      price_delta := _delta previous.price_amount snap.price_amount
      rating_count_delta := _delta previous.rating_count snap.rating_count
      sales_count_delta := _delta previous.sales_count snap.sales_count
      revenue_delta := _delta previous.revenue_estimate snap.revenue_estimate
      raw_source_changed := previous.raw_source_hash != snap.raw_source_hash }

/-- `PipelineDatabase.compute_diffs` (src/pipeline.py lines 291-324) over an
explicit list of stored snapshot rows. -/
def compute_diffs (store : List ProductSnapshotRow) (run_id : String) :
    List ProductDiff :=
  (store.filter (fun r => r.run_id == run_id)).map (diffRowFor store run_id)

/-! ## `src/gumroad_scraper.py` : `parse_price` (C6, C8, C10) -/

/-- `CURRENCY_TO_USD` (src/gumroad_scraper.py lines 61-76). -/
def CURRENCY_TO_USD : List (String × ℚ) :=
  [("USD", 1), ("$", 1),
   ("EUR", Rat.divInt 11 10), ("€", Rat.divInt 11 10),
   ("GBP", Rat.divInt 127 100), ("£", Rat.divInt 127 100),
   ("CAD", Rat.divInt 74 100), ("C$", Rat.divInt 74 100),
   ("AUD", Rat.divInt 66 100), ("A$", Rat.divInt 66 100),
   ("JPY", Rat.divInt 67 10000), ("¥", Rat.divInt 67 10000),
   ("INR", Rat.divInt 12 1000), ("₹", Rat.divInt 12 1000)]

/-- `CURRENCY_TO_USD.get(currency, 1.0)`. -/
def currencyToUsd (c : String) : ℚ := (CURRENCY_TO_USD.lookup c).getD 1

/-- One position of the regex alternative `\$?\s*0\s*\+` used by
`is_pwyw_price`: optional dollar sign, spaces, a zero, spaces, a plus. -/
def zeroPlusAt (l : List Char) : Bool :=
  let l1 := match l with | '$' :: t => t | _ => l
  match l1.dropWhile isPySpace with
  | '0' :: t =>
    match t.dropWhile isPySpace with
    | '+' :: _ => true
    | _ => false
  | _ => false

/-- `is_pwyw_price` (src/gumroad_scraper.py lines 233-243): search the
stripped, lowercased text for any of the pay-what-you-want markers. -/
def is_pwyw_price (l : List Char) : Bool :=
  if l = [] then false
  else
    let normalized := pyLower (pyStrip l)
    listContains normalized (("name your price").toList) ||
      listContains normalized (("pay what you want").toList) ||
      listContains normalized (("pay-what-you-want").toList) ||
      listContains normalized (("pwyw").toList) ||
      anyPosition zeroPlusAt normalized

/-- The gate `'a month' in price_str.lower() or '/mo' in price_str.lower()`. -/
def monthGate (lower : List Char) : Bool :=
  listContains lower (("a month").toList) || listContains lower (("/mo").toList)

/-- Does one of the subscription keywords of the pattern
`\s*(a month|/mo|per month).*` start at this (already lowercased) position? -/
def subKeywordAt (lower : List Char) : Bool :=
  (("a month").toList).isPrefixOf lower || (("/mo").toList).isPrefixOf lower ||
    (("per month").toList).isPrefixOf lower

/-- `re.sub(r'\s*(a month|/mo|per month).*', '', price_str, flags=IGNORECASE)`:
the match extends from the spaces preceding the first keyword occurrence to
the end of the text, so the sub truncates there.  (`.` not matching a
newline is irrelevant for the one-line price strings at issue.) -/
def subscriptionStrip (l : List Char) : List Char :=
  match firstIdxWhere subKeywordAt (pyLower l) with
  | none => l
  | some q =>
    let pre := l.take q
    l.take (q - (pre.reverse.takeWhile isPySpace).length)

/-- The alternatives of the currency-code regex
`\b(USD|EUR|GBP|CAD|AUD|JPY|INR)\b` (the `code_map` maps each matched group,
uppercased, to itself). -/
def codeAlternatives : List String :=
  ["USD", "EUR", "GBP", "CAD", "AUD", "JPY", "INR"]

/-- Regex `\w` (the inputs at issue contain no non-ASCII word characters). -/
def isWordChar (c : Char) : Bool := c.isAlphanum || c = '_'

/-- Case-insensitive match of one 3-letter code at this position with the
trailing word boundary `\b`. -/
def codeMatchAt (suffix : List Char) : Option String :=
  codeAlternatives.findSome? (fun code =>
    if (pyLower code.toList).isPrefixOf (pyLower suffix) then
      match suffix.drop 3 with
      | [] => some code
      | c :: _ => if isWordChar c then none else some code
    else none)

/-- Scan for the currency code, carrying the previous character to decide the
leading word boundary `\b`. -/
def codeScan (prev : Option Char) : List Char → Option String
  | [] =>
    if (match prev with | none => true | some c => !isWordChar c) then codeMatchAt []
    else none
  | c :: t =>
    match
      (if (match prev with | none => true | some p => !isWordChar p) then
        codeMatchAt (c :: t)
      else none)
    with
    | some s => some s
    | none => codeScan (some c) t

/-- `re.search(r"\b(USD|EUR|GBP|CAD|AUD|JPY|INR)\b", price_str, re.IGNORECASE)`
mapped through `code_map` (src/gumroad_scraper.py lines 264-275). -/
def codeSearch (l : List Char) : Option String := codeScan none l

/-- The symbol loop of `parse_price` (src/gumroad_scraper.py lines 277-290):
first symbol of `['€','£','¥','₹','C$','A$','$']` contained in the text wins;
a non-dollar symbol is stored as the currency itself, a bare `$` is resolved
to `CAD`/`AUD`/`USD` (the inner `C$`/`A$` checks are kept as written even
though the loop order makes them unreachable). -/
def symbolCurrency (l : List Char) : Option String :=
  if listContains l ['€'] then some "€"
  else if listContains l ['£'] then some "£"
  else if listContains l ['¥'] then some "¥"
  else if listContains l ['₹'] then some "₹"
  else if listContains l ['C', '$'] then some "C$"
  else if listContains l ['A', '$'] then some "A$"
  else if listContains l ['$'] then
    some
      (if listContains l ['C', '$'] then "CAD"
      else if listContains l ['A', '$'] then "AUD"
      else "USD")
  else none

/-- The maximal match of `[\d,]+\.?\d*` starting exactly here. -/
def numFrom (l : List Char) : List Char :=
  let g := l.takeWhile (fun c => c.isDigit || c = ',')
  match l.drop g.length with
  | '.' :: r2 => g ++ '.' :: r2.takeWhile Char.isDigit
  | _ => g

/-- `re.findall(r'[\d,]+\.?\d*', price_str)` restricted to its first element:
the leftmost maximal number-like fragment, if any. -/
def findNumber : List Char → Option (List Char)
  | [] => none
  | c :: t =>
    if c.isDigit || c = ',' then some (numFrom (c :: t))
    else findNumber t

/-- The tuple returned by `parse_price`:
`(usd_price, original_price, currency, price_is_pwyw)`. -/
structure PriceResult where
  usd : ℚ
  original : String
  currency : String
  is_pwyw : Bool
deriving DecidableEq

/-- The early-return tuple `(0.0, 'Free', 'USD', False)`. -/
def freeResult : PriceResult := { usd := 0, original := "Free", currency := "USD", is_pwyw := false }

/-- The literals of the special case `price_str.lower() in ['free', '$0', '0']`. -/
def priceSpecialLiterals : List (List Char) :=
  [("free").toList, ("$0").toList, ("0").toList]

/-- The body of `parse_price` after the special case and
`price_str = price_str.strip()` (src/gumroad_scraper.py lines 254-303);
`l` is the stripped text.  `none` models the `ValueError` that
`float(numbers[0].replace(',',''))` raises on an all-comma match. -/
def parsePriceSubbed (l l2 : List Char) : Option PriceResult :=
  match findNumber l2 with
  | none =>
    some { usd := 0, original := String.mk l
           currency := (symbolCurrency l2).getD ((codeSearch l2).getD ("UNKNOWN"))
           is_pwyw := is_pwyw_price l }
  | some numTxt =>
    match pyFloat? (numTxt.filter (fun c => c ≠ ',')) with
    | none => none
    | some v =>
      some { usd := round2 (ratMul v (currencyToUsd
               ((symbolCurrency l2).getD ((codeSearch l2).getD ("UNKNOWN")))))
             original := String.mk l
             currency := (symbolCurrency l2).getD ((codeSearch l2).getD ("UNKNOWN"))
             is_pwyw := is_pwyw_price l }

/-- See `parsePriceCore`: `l2` is the text after the subscription-suffix
sub, and the currency is the symbol-loop result falling back on the
code-regex result falling back on `'UNKNOWN'`. -/
def parsePriceCore (l : List Char) : Option PriceResult :=
  parsePriceSubbed l (if monthGate (pyLower l) then subscriptionStrip l else l)

/-- `parse_price` (src/gumroad_scraper.py lines 246-303).  The argument is an
`Option String` so that the Python falsy check `not price_str` covers both
`None` and the empty string; `price_str.lower() in ['free','$0','0']` is
tested before any stripping, exactly as in the source. -/
def parse_price (input : Option String) : Option PriceResult :=
  match input with
  | none => some freeResult
  | some s =>
    if s.toList.isEmpty || decide (pyLower s.toList ∈ priceSpecialLiterals) then
      some freeResult
    else parsePriceCore (pyStrip s.toList)

/-! ## `src/gumroad_scraper.py` : `parse_rating` (C3) -/

/-- The character class `[\d().]` kept by the first cleanup sub. -/
def keepRatingChar (c : Char) : Bool :=
  c.isDigit || c = '(' || c = ')' || c = '.'

/-- `re.sub(r'[^\d().]+', ' ', s)`: each maximal run of other characters
becomes a single space (the Boolean records whether we are inside such a
run). -/
def classSubGo (inRun : Bool) : List Char → List Char
  | [] => []
  | c :: t =>
    if keepRatingChar c then c :: classSubGo false t
    else if inRun then classSubGo true t
    else ' ' :: classSubGo true t

/-- `re.sub(r'[^\d().]+', ' ', s)`. -/
def classSub (l : List Char) : List Char := classSubGo false l

/-- Matcher for `re.sub(r'/\s*5', ' ', s)` at one position (a no-op after
`classSub` has removed every `/`, retained for fidelity to the source). -/
def slashFiveAt (l : List Char) : Option (ℕ × List Char) :=
  match l with
  | '/' :: t =>
    let d := t.dropWhile isPySpace
    match d with
    | '5' :: _ => some (1 + (t.length - d.length) + 1, [' '])
    | _ => none
  | _ => none

/-- Matcher for `re.sub(r'([\d.]+)\s+\d+(?=\s*\()', r'\1', s)` at one
position: a number, whitespace, digits, with a lookahead of optional spaces
then `(`; the match (lookahead excluded) is replaced by the number. -/
def numPairCollapseAt (l : List Char) : Option (ℕ × List Char) :=
  let g1 := l.takeWhile (fun c => c.isDigit || c = '.')
  if g1 = [] then none
  else
    let r1 := l.drop g1.length
    let sp := r1.takeWhile isPySpace
    if sp = [] then none
    else
      let r2 := r1.drop sp.length
      let dg := r2.takeWhile Char.isDigit
      if dg = [] then none
      else
        match (r2.drop dg.length).dropWhile isPySpace with
        | '(' :: _ => some (g1.length + sp.length + dg.length, g1)
        | _ => none

/-- The cleanup pipeline of `parse_rating`
(src/gumroad_scraper.py lines 314-322). -/
def ratingCleanup (l : List Char) : List Char :=
  let s1 := joinSpace (pyWords l)
  let s2 := classSub s1
  let s3 := runSub slashFiveAt s2
  let s4 := runSub numPairCollapseAt s3
  let s5 := joinSpace (pyWords s4)
  let s6 := s5.dropWhile (fun c => !c.isDigit)
  (s6.reverse.dropWhile (fun c => !(c.isDigit || c = ')'))).reverse

/-- The `[^\d]+\(\s*(\d+)` tail of the primary rating pattern, after the
number group: regex backtracking tries the latest `(` inside the maximal
non-digit run first. -/
def ratingTail1 (rest : List Char) : Option (List Char) :=
  let nd := rest.takeWhile (fun c => !c.isDigit)
  ((List.range nd.length).reverse).findSome? (fun j =>
    if j = 0 then none
    else
      match rest.drop j with
      | '(' :: after =>
        let ds := (after.dropWhile isPySpace).takeWhile Char.isDigit
        if ds = [] then none else some ds
      | _ => none)

/-- `re.search(r'([\d.]+)[^\d]+\(\s*(\d+)', s)` anchored at one position:
the number group is tried longest-first, as regex greediness does. -/
def ratingMatch1At (l : List Char) : Option (List Char × List Char) :=
  let run := l.takeWhile (fun c => c.isDigit || c = '.')
  ((List.range run.length).reverse).findSome? (fun k0 =>
    (ratingTail1 (l.drop (k0 + 1))).map (fun ds => (run.take (k0 + 1), ds)))

/-- `re.search(r'([\d.]+)\s*\(?(\d+)', s)` anchored at one position. -/
def ratingMatch2At (l : List Char) : Option (List Char × List Char) :=
  let run := l.takeWhile (fun c => c.isDigit || c = '.')
  ((List.range run.length).reverse).findSome? (fun k0 =>
    let rest := (l.drop (k0 + 1)).dropWhile isPySpace
    match rest with
    | '(' :: after =>
      let ds := after.takeWhile Char.isDigit
      if ds = [] then none else some (run.take (k0 + 1), ds)
    | _ =>
      let ds := rest.takeWhile Char.isDigit
      if ds = [] then none else some (run.take (k0 + 1), ds))

/-- `re.search(r'([\d.]+)', s)` anchored at one position. -/
def ratingMatch3At (l : List Char) : Option (List Char) :=
  let run := l.takeWhile (fun c => c.isDigit || c = '.')
  if run = [] then none else some run

/-- `parse_rating` (src/gumroad_scraper.py lines 306-356).  The result is
`some (average_rating, total_reviews)`; the outer `none` models the
`ValueError` that `float` raises on a malformed number group (e.g. two
dots).  Each branch repeats the source's guard: a parsed rating outside
`[0, 5]` is replaced by `None` while the recovered count is kept. -/
def parse_rating (input : String) : Option (Option ℚ × ℕ) :=
  if input.toList.isEmpty then some (none, 0)
  else
    match scanPositions ratingMatch1At (ratingCleanup input.toList) with
    | some (g1, g2) =>
      match pyFloat? g1 with
      | none => none
      | some rating =>
        if rating < 0 ∨ 5 < rating then some (none, digitsVal g2)
        else some (some rating, digitsVal g2)
    | none =>
      match scanPositions ratingMatch2At (ratingCleanup input.toList) with
      | some (g1, g2) =>
        match pyFloat? g1 with
        | none => none
        | some rating =>
          if rating < 0 ∨ 5 < rating then some (none, digitsVal g2)
          else some (some rating, digitsVal g2)
      | none =>
        match scanPositions ratingMatch3At (ratingCleanup input.toList) with
        | some g1 =>
          match pyFloat? g1 with
          | none => none
          | some rating =>
            if rating < 0 ∨ 5 < rating then some (none, 0)
            else some (some rating, 0)
        | none => some (none, 0)

/-! ## `src/opportunity_engine.py` : configuration and sub-scores (C4, C5, C7)

The reason/notes string components returned alongside each sub-score, the
`reason_summary` and `saturation_examples` fields, and the sorted neighbour
example list are presentation-only and are omitted from the embedding; every
numeric output is modelled.  `math.log` is an abstract parameter `rlog`
(its analytic value never affects a claim), and `config.get(key, default)`
is total field access on the `Config` record (the defaults of `load_config`
populate every key). -/

/-- The `weights` section of `load_config`. -/
structure WeightsCfg where
  velocity : ℚ
  copyability : ℚ
  novelty : ℚ
  price_to_value : ℚ
  saturation_penalty : ℚ

/-- The `velocity` section of `load_config`. -/
structure VelocityCfg where
  rating_per_hour_for_max : ℚ
  sales_per_hour_for_max : ℚ
  spike_rating_delta : ℚ
  spike_sales_delta : ℚ
  min_hours : ℚ

/-- The `price_to_value` section of `load_config` (the two-element lists
`sweet_spot` and `acceptable` are split into low/high fields). -/
structure PriceToValueCfg where
  sweet_spot_low : ℚ
  sweet_spot_high : ℚ
  acceptable_low : ℚ
  acceptable_high : ℚ
  penalty_high : ℚ
  penalty_low : ℚ

/-- The `novelty` section of `load_config`. -/
structure NoveltyCfg where
  history_runs : ℕ
  min_token_length : ℕ

/-- The `copyability` section of `load_config`. -/
structure CopyabilityCfg where
  format_keywords : List String
  audience_markers : List String
  brand_blocks : List String
  creator_penalty : ℚ

/-- The `saturation` section of `load_config`. -/
structure SaturationCfg where
  similarity_threshold : ℚ
  penalty_per_neighbor : ℚ
  max_penalty : ℚ

/-- The `confidence` section of `load_config`. -/
structure ConfidenceCfg where
  reviews_high : ℚ
  reviews_med : ℚ
  sales_high : ℚ
  sales_med : ℚ

/-- The `alerts` section of `load_config`. -/
structure AlertsCfg where
  price_pct_move : ℚ
  min_price_change : ℚ

/-- The whole threshold/weight configuration of the opportunity engine. -/
structure Config where
  weights : WeightsCfg
  velocity : VelocityCfg
  price_to_value : PriceToValueCfg
  novelty : NoveltyCfg
  copyability : CopyabilityCfg
  saturation : SaturationCfg
  confidence : ConfidenceCfg
  alerts : AlertsCfg

/-- The `base` dict of `load_config` (src/opportunity_engine.py lines 37-83);
merging a user config file over these defaults is out of scope (the claims
quantify over arbitrary configurations). -/
def defaultConfig : Config :=
  { weights :=
      { velocity := Rat.divInt 35 100
        copyability := Rat.divInt 20 100
        novelty := Rat.divInt 15 100
        price_to_value := Rat.divInt 20 100
        saturation_penalty := Rat.divInt 10 100 }
    velocity :=
      { rating_per_hour_for_max := 5
        sales_per_hour_for_max := 20
        spike_rating_delta := 12
        spike_sales_delta := 50
        min_hours := 6 }
    price_to_value :=
      { sweet_spot_low := 15
        sweet_spot_high := 79
        acceptable_low := 5
        acceptable_high := 149
        penalty_high := 40
        penalty_low := 20 }
    novelty := { history_runs := 3, min_token_length := 4 }
    copyability :=
      { format_keywords :=
          ["template", "checklist", "playbook", "framework", "prompts",
           "swipe", "spreadsheet", "notion"]
        audience_markers := ["for", "to"]
        brand_blocks := [" by ", "with "]
        creator_penalty := 20 }
    saturation :=
      { similarity_threshold := Rat.divInt 55 100
        penalty_per_neighbor := 12
        max_penalty := 60 }
    confidence :=
      { reviews_high := 25, reviews_med := 5, sales_high := 150, sales_med := 25 }
    alerts := { price_pct_move := Rat.divInt 25 100, min_price_change := 5 } }

/-- A snapshot dict as consumed by the opportunity engine (`snapshot.get(key)`
returns `None` for a missing key, hence every field is optional). -/
structure SnapMap where
  run_id : Option String := none
  platform : Option String := none
  product_id : Option String := none
  url : Option String := none
  title : Option String := none
  category : Option String := none
  creator_name : Option String := none
  price_currency : Option String := none
  price_amount : Option ℚ := none
  rating_avg : Option ℚ := none
  rating_count : Option ℚ := none
  sales_count : Option ℚ := none
deriving DecidableEq

/-- A diff dict as consumed by the opportunity engine. -/
structure DiffMap where
  previous_run_id : Option String := none
  price_delta : Option ℚ := none
  rating_count_delta : Option ℚ := none
  sales_count_delta : Option ℚ := none
deriving DecidableEq

/-- `_tokenize` (src/opportunity_engine.py lines 115-118). -/
def _tokenize (title : String) : List String :=
  let cleaned := title.toList.map (fun c =>
    if c.isAlphanum || c = '-' || c = ' ' then c.toLower else ' ')
  (pyWords cleaned).map (fun w => String.mk w)

/-- `compute_velocity_score` (src/opportunity_engine.py lines 121-135), the
score component (the human-readable notes are presentation-only). -/
def compute_velocity_score (diff : DiffMap) (hours_delta : ℚ) (cfg : Config) : ℚ :=
  let hours := pyMax hours_delta cfg.velocity.min_hours
  let rating_rate := pyDiv (diff.rating_count_delta.getD 0) hours
  let sales_rate := pyDiv (diff.sales_count_delta.getD 0) hours
  let rating_score := pyMin 1 (pyDiv rating_rate (pyMax cfg.velocity.rating_per_hour_for_max 1))
  let sales_score := pyMin 1 (pyDiv sales_rate (pyMax cfg.velocity.sales_per_hour_for_max 1))
  round2 (ratMul (ratAdd (ratMul rating_score (mkRat 1 2)) (ratMul sales_score (mkRat 1 2))) 100)

/-- `compute_price_to_value_score` (src/opportunity_engine.py lines 138-154),
the score component. -/
def compute_price_to_value_score (price : Option ℚ) (category : Option String)
    (cfg : Config) : ℚ :=
  match price with
  | none => 55
  | some p =>
    if cfg.price_to_value.sweet_spot_low ≤ p ∧ p ≤ cfg.price_to_value.sweet_spot_high then 95
    else if cfg.price_to_value.acceptable_low ≤ p ∧ p ≤ cfg.price_to_value.acceptable_high then 80
    else if p < cfg.price_to_value.acceptable_low then
      pyMax 40 (ratSub 80 cfg.price_to_value.penalty_low)
    else pyMax 35 (ratSub 80 cfg.price_to_value.penalty_high)

/-- The document-frequency `Counter` of `compute_novelty_score`: occurrences
of `tok` among all tokens of the corpus rows with length at least 4 (the
literal 4 is hard-coded in the source's generator expression). -/
def dfCount (category_tokens : List (List String)) (tok : String) : ℕ :=
  ((category_tokens.foldr (fun row acc => row ++ acc) []).filter
    (fun t => 4 ≤ t.length && t == tok)).length

/-- `compute_novelty_score` (src/opportunity_engine.py lines 157-175), the
score component; `rlog` abstracts `math.log`. -/
def compute_novelty_score (rlog : ℚ → ℚ) (title : String) (category : Option String)
    (category_titles : List String) (cfg : Config) : ℚ :=
  let tokens := (_tokenize title).filter (fun t => cfg.novelty.min_token_length ≤ t.length)
  if tokens.isEmpty then 50
  else
    let category_tokens := category_titles.map _tokenize
    let total_docs := max category_tokens.length 1
    let idfs := tokens.dedup.map (fun token =>
      ratAdd (rlog (pyDiv ((1 + total_docs : ℕ) : ℚ)
        ((1 + dfCount category_tokens token : ℕ) : ℚ))) 1)
    let avg_idf := pyDiv (idfs.foldl ratAdd 0) (idfs.length : ℚ)
    round2 (pyMin 100 (ratMul (pyDiv avg_idf 3) 100))

/-- `compute_copyability_score` (src/opportunity_engine.py lines 178-191), the
score component. -/
def compute_copyability_score (title : String) (cfg : Config) : ℚ :=
  let tokens := _tokenize title
  let lower_title := pyLower title.toList
  let keyword_hits := cfg.copyability.format_keywords.filter
    (fun kw => listContains lower_title kw.toList)
  let audience_present := tokens.any (fun t => t == "for")
  let brand_signals := cfg.copyability.brand_blocks.any
    (fun m => listContains lower_title m.toList)
  let score0 : ℚ := ((60 + 10 * keyword_hits.length : ℕ) : ℚ)
  let score1 := if audience_present then ratAdd score0 10 else score0
  let score2 := if brand_signals then ratSub score1 cfg.copyability.creator_penalty else score1
  pyMax 10 (pyMin 100 score2)

/-- `_title_similarity` (src/opportunity_engine.py lines 223-228): token-set
Jaccard similarity. -/
def _title_similarity (a b : String) : ℚ :=
  let ta := (_tokenize a).dedup
  let tb := (_tokenize b).dedup
  if ta.isEmpty || tb.isEmpty then 0
  else
    let overlap := (ta.filter (fun t => tb.contains t)).length
    pyDiv (overlap : ℚ) (((ta ++ tb).dedup.length : ℕ) : ℚ)

/-- `compute_saturation_penalty` (src/opportunity_engine.py lines 205-220),
the penalty component (the sorted example list is presentation-only). -/
def compute_saturation_penalty (title : String) (category : Option String)
    (category_titles : List String) (cfg : Config) : ℚ :=
  let neighbors := category_titles.filter (fun other =>
    other != title && decide (cfg.saturation.similarity_threshold ≤ _title_similarity title other))
  pyMin cfg.saturation.max_penalty (ratMul (neighbors.length : ℚ) cfg.saturation.penalty_per_neighbor)

/-- `infer_confidence` (src/opportunity_engine.py lines 231-236). -/
def infer_confidence (rating_count sales_count : Option ℚ) (cfg : Config) : String :=
  if cfg.confidence.reviews_high ≤ rating_count.getD 0 ∨
      cfg.confidence.sales_high ≤ sales_count.getD 0 then "high"
  else if cfg.confidence.reviews_med ≤ rating_count.getD 0 ∨
      cfg.confidence.sales_med ≤ sales_count.getD 0 then "med"
  else "low"

/-- The dict returned by `assemble_opportunity` (src/opportunity_engine.py
lines 275-299), minus the presentation-only `reason_summary` and
`saturation_examples` entries. -/
structure Opportunity where
  run_id : Option String
  platform : Option String
  product_id : Option String
  title : Option String
  url : Option String
  category : Option String
  creator_name : Option String
  price_amount : Option ℚ
  price_currency : Option String
  rating_avg : Option ℚ
  rating_count : Option ℚ
  rating_count_delta : Option ℚ
  sales_count : Option ℚ
  sales_count_delta : Option ℚ
  opportunity_score : ℚ
  velocity_score : ℚ
  novelty_score : ℚ
  copyability_score : ℚ
  price_to_value_score : ℚ
  saturation_penalty : ℚ
  confidence : String
deriving DecidableEq

/-- `assemble_opportunity` (src/opportunity_engine.py lines 239-299). -/
def assemble_opportunity (rlog : ℚ → ℚ) (snapshot : SnapMap) (diff : DiffMap)
    (category_titles : List String) (hours_delta : ℚ) (cfg : Config) : Opportunity :=
  let velocity_score := compute_velocity_score diff hours_delta cfg
  let price_score := compute_price_to_value_score snapshot.price_amount snapshot.category cfg
  let novelty_score :=
    compute_novelty_score rlog (snapshot.title.getD "") snapshot.category category_titles cfg
  let copyability_score := compute_copyability_score (snapshot.title.getD "") cfg
  let saturation_pen :=
    compute_saturation_penalty (snapshot.title.getD "") snapshot.category category_titles cfg
  let weighted0 :=
    ratAdd
      (ratAdd
        (ratAdd (ratMul velocity_score cfg.weights.velocity)
          (ratMul copyability_score cfg.weights.copyability))
        (ratMul novelty_score cfg.weights.novelty))
      (ratMul price_score cfg.weights.price_to_value)
  let weighted := ratSub weighted0 (ratMul saturation_pen cfg.weights.saturation_penalty)
  let opportunity_score := round2 (pyMax 0 (pyMin 100 weighted))
  { run_id := snapshot.run_id
    platform := snapshot.platform
    product_id := snapshot.product_id
    title := snapshot.title
    url := snapshot.url
    category := snapshot.category
    creator_name := snapshot.creator_name
    price_amount := snapshot.price_amount
    price_currency := snapshot.price_currency
    rating_avg := snapshot.rating_avg
    rating_count := snapshot.rating_count
    rating_count_delta := diff.rating_count_delta
    sales_count := snapshot.sales_count
    sales_count_delta := diff.sales_count_delta
    opportunity_score := opportunity_score
    velocity_score := round2 velocity_score
    novelty_score := round2 novelty_score
    copyability_score := round2 copyability_score
    price_to_value_score := round2 price_score
    saturation_penalty := round2 saturation_pen
    confidence := infer_confidence snapshot.rating_count snapshot.sales_count cfg }

/-! ## `src/opportunity_engine.py` : `detect_alerts` (C5) -/

/-- An alert event (src/opportunity_engine.py `detect_alerts`); the
presentation-only `message` and `metadata` payloads are omitted, the
discriminating `alert_type` and identifiers are kept. -/
structure Alert where
  run_id : String
  platform : Option String
  product_id : Option String
  alert_type : String
deriving DecidableEq

/-- The loop body of `detect_alerts` for one snapshot
(src/opportunity_engine.py lines 392-452). -/
def alertsForSnapshot (run_id : String) (previous_run_id : Option String)
    (cfg : Config) (diffs : List ((Option String × Option String) × DiffMap))
    (snap : SnapMap) : List Alert :=
  let diff := (diffs.lookup (snap.platform, snap.product_id)).getD {}
  let rating_delta := diff.rating_count_delta.getD 0
  let sales_delta := diff.sales_count_delta.getD 0
  match previous_run_id with
  | none =>
    [{ run_id := run_id, platform := snap.platform, product_id := snap.product_id,
       alert_type := "new_entrant" }]
  | some _ =>
    (if cfg.velocity.spike_rating_delta ≤ rating_delta ∨
        cfg.velocity.spike_sales_delta ≤ sales_delta then
      [{ run_id := run_id, platform := snap.platform, product_id := snap.product_id,
         alert_type := "velocity_spike" }]
    else []) ++
    (match diff.price_delta with
    | none => []
    | some pd =>
      if pd = 0 then []
      else
        let denom := ratSub (snap.price_amount.getD 0) pd
        let pct : Option ℚ := if denom = 0 then none else some (pyDiv pd denom)
        let pctHit : Bool :=
          match pct with
          | none => false
          | some p => !decide (p = 0) && decide (cfg.alerts.price_pct_move ≤ pyAbs p)
        if cfg.alerts.min_price_change ≤ pyAbs pd ∨ pctHit = true then
          [{ run_id := run_id, platform := snap.platform, product_id := snap.product_id,
             alert_type := "pricing_move" }]
        else []) ++
    (if diff.previous_run_id = none then
      [{ run_id := run_id, platform := snap.platform, product_id := snap.product_id,
         alert_type := "new_entrant" }]
    else [])

/-- `detect_alerts` (src/opportunity_engine.py lines 384-453). -/
def detect_alerts (run_id : String) (snapshots : List SnapMap)
    (diffs : List ((Option String × Option String) × DiffMap))
    (previous_run_id : Option String) (cfg : Config) : List Alert :=
  snapshots.foldr (fun snap acc =>
    alertsForSnapshot run_id previous_run_id cfg diffs snap ++ acc) []

/-! ## `src/scripts/full_gumroad_scrape.py` : adaptive delays and the retry
wrapper (C9) -/

/-- `AdaptiveDelayConfig` (src/scripts/full_gumroad_scrape.py lines 31-60). -/
structure AdaptiveDelayConfig where
  base_category_delay : ℚ := 60
  base_subcategory_delay : ℚ := 30
  failure_cooldown : ℚ := 300
  consecutive_failures : ℕ := 0
  max_multiplier : ℚ := 4
deriving DecidableEq

/-- `record_success`: `max(0, consecutive_failures - 1)` (truncated natural
subtraction). -/
def AdaptiveDelayConfig.record_success (c : AdaptiveDelayConfig) : AdaptiveDelayConfig :=
  { c with consecutive_failures := c.consecutive_failures - 1 }

/-- `record_failure`: increment the consecutive-failure counter. -/
def AdaptiveDelayConfig.record_failure (c : AdaptiveDelayConfig) : AdaptiveDelayConfig :=
  { c with consecutive_failures := c.consecutive_failures + 1 }

/-- The `multiplier` property: `min(1 + failures * 0.5, max_multiplier)`. -/
def AdaptiveDelayConfig.multiplier (c : AdaptiveDelayConfig) : ℚ :=
  pyMin (ratAdd 1 (ratMul (c.consecutive_failures : ℚ) (mkRat 1 2))) c.max_multiplier

/-- `get_category_delay`: `int(base * multiplier)` (the operands are
non-negative, so `int` truncation is the floor). -/
def AdaptiveDelayConfig.get_category_delay (c : AdaptiveDelayConfig) : ℤ :=
  (ratMul c.base_category_delay c.multiplier).floor

/-- `get_subcategory_delay`. -/
def AdaptiveDelayConfig.get_subcategory_delay (c : AdaptiveDelayConfig) : ℤ :=
  (ratMul c.base_subcategory_delay c.multiplier).floor

/-- `get_failure_cooldown`. -/
def AdaptiveDelayConfig.get_failure_cooldown (c : AdaptiveDelayConfig) : ℤ :=
  (ratMul c.failure_cooldown c.multiplier).floor

/-- The outcome of one `scrape_discover_page` call: a product list, or a
raised exception.  The scraped products are abstract (`α`); the attempt
index feeds an oracle so that the retry loop's control flow is modelled for
every possible sequence of outcomes. -/
inductive ScrapeOutcome (α : Type) where
  | ok (products : List α)
  | exc (message : String)

/-- The debug-info dict `_scrape_with_retry` returns alongside the products:
`{"zero_products": True, "url": url}` or `{"error": str(exc), "url": url}`. -/
inductive DebugResult where
  | zeroProducts (url : String)
  | errorInfo (message url : String)
deriving DecidableEq

/-- The `for attempt in range(max_retries)` loop of `_scrape_with_retry`
(src/scripts/full_gumroad_scrape.py lines 139-177), with the delay config
state threaded explicitly; the fuel counts the remaining loop iterations.
Returns the product list, the optional debug result, and the final delay
config.  The `await asyncio.sleep(backoff)` between attempts is
timing-only and not modelled. -/
def scrapeRetryGo {α : Type} (scrape : ℕ → ScrapeOutcome α) (url : String)
    (max_retries : ℕ) : ℕ → ℕ → AdaptiveDelayConfig →
    List α × Option DebugResult × AdaptiveDelayConfig
  | _, 0, cfg => ([], none, cfg)
  | attempt, fuel + 1, cfg =>
    match scrape attempt with
    | .ok products =>
      if products.length = 0 then
        (products, some (.zeroProducts url), cfg.record_failure)
      else (products, none, cfg.record_success)
    | .exc message =>
      let cfg2 := cfg.record_failure
      if attempt + 1 < max_retries then
        scrapeRetryGo scrape url max_retries (attempt + 1) fuel cfg2
      else ([], some (.errorInfo message url), cfg2)

/-- `_scrape_with_retry` (src/scripts/full_gumroad_scrape.py lines 124-177);
the source's default `max_retries` is 3. -/
def _scrape_with_retry {α : Type} (scrape : ℕ → ScrapeOutcome α) (url : String)
    (cfg : AdaptiveDelayConfig) (max_retries : ℕ) :
    List α × Option DebugResult × AdaptiveDelayConfig :=
  scrapeRetryGo scrape url max_retries 0 max_retries cfg

/-! ## Concrete fixtures used by counterexamples and witnesses -/

/-- A concrete snapshot (fixture). -/
def snapA : ProductSnapshot :=
  { platform := "gumroad"
    product_id := "p1"
    url := "https://gumroad.com/l/p1"
    title := "Notion template"
    creator_name := "alice"
    creator_url := none
    category := some "design"
    price_amount := some 10
    price_currency := some "USD"
    price_is_pwyw := false
    rating_avg := none
    rating_count := some 3
    sales_count := some 7
    revenue_estimate := none
    revenue_confidence := "low"
    scraped_at := "2024-01-01T00:00:00" }

/-- The same snapshot scraped a day later: every field equal except
`scraped_at`. -/
def snapB : ProductSnapshot :=
  { snapA with scraped_at := "2024-01-02T00:00:00" }

/-- A stored snapshot row from an earlier run (fixture). -/
def rowA : ProductSnapshotRow :=
  { platform := "gumroad"
    product_id := "p1"
    run_id := "run-a"
    url := "https://gumroad.com/l/p1"
    title := "Notion template"
    creator_name := "alice"
    creator_url := none
    category := some "design"
    price_amount := some 10
    price_currency := some "USD"
    price_is_pwyw := false
    rating_avg := none
    rating_count := some 3
    sales_count := some 7
    revenue_estimate := some 60
    revenue_confidence := "low"
    tags := []
    scraped_at := 1
    raw_source_hash := "h-a" }

/-- The same product's row in a later run with a higher price (fixture). -/
def rowB : ProductSnapshotRow :=
  { rowA with
    run_id := "run-b"
    price_amount := some (Rat.divInt 25 2)
    scraped_at := 2
    raw_source_hash := "h-b" }

/-- The two-run snapshot store (fixture). -/
def storeAB : List ProductSnapshotRow := [rowA, rowB]

/-- A snapshot dict for the alert fixtures. -/
def snapAlert : SnapMap :=
  { platform := some "gumroad"
    product_id := some "p1"
    title := some "Notion template"
    category := some "design"
    price_amount := some 29 }

/-- A diff map carrying a large sales spike and no per-product previous run
(fixture). -/
def diffSpike : DiffMap :=
  { previous_run_id := none, sales_count_delta := some 1000 }

/-- The diffs mapping for the alert fixtures. -/
def diffsSpike : List ((Option String × Option String) × DiffMap) :=
  [((some "gumroad", some "p1"), diffSpike)]

/-- A diff with a large negative sales delta (fixture). -/
def diffNeg : DiffMap := { sales_count_delta := some (-10000) }

/-- A diff with positive deltas (fixture). -/
def diffPos : DiffMap :=
  { rating_count_delta := some 10, sales_count_delta := some 50 }

/-! ## Helper lemmas: the kernel-friendly arithmetic is ordinary arithmetic -/

lemma den_cast_ne_zero (a : ℚ) : ((a.den : ℚ)) ≠ 0 := by
  exact_mod_cast a.den_nz

lemma ratAdd_eq (a b : ℚ) : ratAdd a b = a + b := by
  rw [ratAdd, Rat.mkRat_eq_divInt, Rat.divInt_eq_div]
  conv_rhs => rw [← Rat.num_div_den a, ← Rat.num_div_den b]
  rw [div_add_div _ _ (den_cast_ne_zero a) (den_cast_ne_zero b)]
  push_cast
  ring_nf

lemma ratSub_eq (a b : ℚ) : ratSub a b = a - b := by
  rw [ratSub, Rat.mkRat_eq_divInt, Rat.divInt_eq_div]
  conv_rhs => rw [← Rat.num_div_den a, ← Rat.num_div_den b]
  rw [div_sub_div _ _ (den_cast_ne_zero a) (den_cast_ne_zero b)]
  push_cast
  ring_nf

lemma ratMul_eq (a b : ℚ) : ratMul a b = a * b := by
  rw [ratMul, Rat.mkRat_eq_divInt, Rat.divInt_eq_div]
  conv_rhs => rw [← Rat.num_div_den a, ← Rat.num_div_den b]
  rw [div_mul_div_comm]
  push_cast
  ring_nf

lemma pyDiv_eq_div (a b : ℚ) : pyDiv a b = a / b := by
  rw [pyDiv, ratMul_eq, ← Rat.inv_def', div_eq_mul_inv]

lemma pyMin_eq (a b : ℚ) : pyMin a b = min a b := by
  rw [pyMin, min_def]

lemma pyMax_eq (a b : ℚ) : pyMax a b = max a b := by
  rw [pyMax, max_def]
  rcases le_total a b with h | h
  · rcases eq_or_lt_of_le h with rfl | h'
    · simp
    · rw [if_pos h, if_neg (not_le.2 h')]
  · rcases eq_or_lt_of_le h with rfl | h'
    · simp
    · rw [if_neg (not_le.2 h'), if_pos h]

lemma pyAbs_eq (a : ℚ) : pyAbs a = |a| := by
  rw [pyAbs]
  rcases lt_or_le a 0 with h | h
  · rw [if_pos h, abs_of_neg h]
  · rw [if_neg (not_lt.2 h), abs_of_nonneg h]

lemma ratFloor_eq (q : ℚ) : q.floor = ⌊q⌋ :=
  (Rat.floor_def' q).trans Rat.floor_def.symm

lemma half_val : mkRat 1 2 = (1 : ℚ) / 2 := by
  rw [Rat.mkRat_eq_divInt, Rat.divInt_eq_div]
  norm_num

/-- `pyRound` rewritten in standard vocabulary. -/
lemma pyRound_eq (q : ℚ) :
    pyRound q =
      if q - ⌊q⌋ < 1 / 2 then ⌊q⌋
      else if 1 / 2 < q - ⌊q⌋ then ⌊q⌋ + 1
      else if ⌊q⌋ % 2 = 0 then ⌊q⌋ else ⌊q⌋ + 1 := by
  rw [pyRound]
  simp only [ratSub_eq, ratFloor_eq, half_val]

lemma floor_le_pyRound (q : ℚ) : ⌊q⌋ ≤ pyRound q := by
  rw [pyRound_eq]
  split
  · exact le_refl _
  · split
    · omega
    · split <;> omega

lemma pyRound_le_floor_half (q : ℚ) : pyRound q ≤ ⌊q + 1 / 2⌋ := by
  have hfl : (⌊q⌋ : ℚ) ≤ q := Int.floor_le q
  rw [pyRound_eq]
  split
  · exact Int.floor_le_floor (by linarith)
  · rename_i h1
    push_neg at h1
    have : ((⌊q⌋ + 1 : ℤ) : ℚ) ≤ q + 1 / 2 := by push_cast; linarith
    have h2 : ⌊q⌋ + 1 ≤ ⌊q + 1 / 2⌋ := Int.le_floor.2 this
    split
    · omega
    · split <;> omega

lemma pyRound_nonneg (q : ℚ) (h : 0 ≤ q) : 0 ≤ pyRound q :=
  le_trans (Int.floor_nonneg.2 h) (floor_le_pyRound q)

lemma pyRound_le_of_le (q : ℚ) (n : ℤ) (h : q ≤ n) : pyRound q ≤ n := by
  have h1 : pyRound q ≤ ⌊q + 1 / 2⌋ := pyRound_le_floor_half q
  have h2 : ⌊q + 1 / 2⌋ ≤ ⌊(n : ℚ) + 1 / 2⌋ := Int.floor_le_floor (by linarith)
  have h3 : ⌊(n : ℚ) + 1 / 2⌋ = n := by
    rw [add_comm, Int.floor_add_int]
    norm_num
  omega

lemma pyRound_intCast (n : ℤ) : pyRound (n : ℚ) = n := by
  rw [pyRound_eq]
  rw [Int.floor_intCast]
  rw [if_pos (by norm_num)]

lemma round2_eq (q : ℚ) : round2 q = (pyRound (q * 100) : ℚ) / 100 := by
  rw [round2, ratMul_eq, Rat.divInt_eq_div]
  norm_num

lemma round2_nonneg (q : ℚ) (h : 0 ≤ q) : 0 ≤ round2 q := by
  rw [round2_eq]
  have : (0 : ℤ) ≤ pyRound (q * 100) := pyRound_nonneg _ (by linarith)
  positivity

lemma round2_le_100 (q : ℚ) (h : q ≤ 100) : round2 q ≤ 100 := by
  rw [round2_eq]
  have h1 : pyRound (q * 100) ≤ (10000 : ℤ) := pyRound_le_of_le _ _ (by push_cast; linarith)
  rw [div_le_iff₀ (by norm_num)]
  calc (pyRound (q * 100) : ℚ) ≤ ((10000 : ℤ) : ℚ) := by exact_mod_cast h1
    _ = 100 * 100 := by norm_num

lemma round2_exact (q : ℚ) (m : ℤ) (h : q * 100 = (m : ℚ)) : round2 q = q := by
  rw [round2_eq, h, pyRound_intCast]
  field_simp
  linarith [h]

/-! ## Claim C1 -/

/-- Claim C1 counterexample: `snapA` and `snapB` agree on every normalized
field and differ only in `scraped_at`, yet `compute_hash` yields different
digests — the serialization does NOT exclude `scraped_at` (it pops only
`raw_source_hash`), so the claim as stated is false on the code. -/
theorem c1_counterexample :
    snapA.compute_hash ≠ snapB.compute_hash ∧
    snapA.scraped_at ≠ snapB.scraped_at ∧
    snapA.platform = snapB.platform ∧
    snapA.product_id = snapB.product_id ∧
    snapA.url = snapB.url ∧
    snapA.title = snapB.title ∧
    snapA.creator_name = snapB.creator_name ∧
    snapA.creator_url = snapB.creator_url ∧
    snapA.category = snapB.category ∧
    snapA.price_amount = snapB.price_amount ∧
    snapA.price_currency = snapB.price_currency ∧
    snapA.price_is_pwyw = snapB.price_is_pwyw ∧
    snapA.rating_avg = snapB.rating_avg ∧
    snapA.rating_count = snapB.rating_count ∧
    snapA.sales_count = snapB.sales_count ∧
    snapA.revenue_estimate = snapB.revenue_estimate ∧
    snapA.revenue_confidence = snapB.revenue_confidence ∧
    snapA.subcategory = snapB.subcategory ∧
    snapA.description = snapB.description ∧
    snapA.mixed_review_count = snapB.mixed_review_count ∧
    snapA.mixed_review_percent = snapB.mixed_review_percent ∧
    snapA.tags = snapB.tags ∧
    snapA.raw_source_hash = snapB.raw_source_hash := by
  decide

/-- Claim C1 (amended): `compute_hash` serializes every field except
`raw_source_hash`, *including* `scraped_at`; two snapshots get equal hashes
iff they agree on all fields other than `raw_source_hash` — so the hash
changes if any scored field changes, and it also changes when only
`scraped_at` changes. -/
theorem c1_hash_excludes_only_raw_source_hash :
    ∀ s1 s2 : ProductSnapshot,
      s1.compute_hash = s2.compute_hash ↔
        (s1.platform = s2.platform ∧ s1.product_id = s2.product_id ∧
          s1.url = s2.url ∧ s1.title = s2.title ∧
          s1.creator_name = s2.creator_name ∧ s1.creator_url = s2.creator_url ∧
          s1.category = s2.category ∧ s1.price_amount = s2.price_amount ∧
          s1.price_currency = s2.price_currency ∧
          s1.price_is_pwyw = s2.price_is_pwyw ∧ s1.rating_avg = s2.rating_avg ∧
          s1.rating_count = s2.rating_count ∧ s1.sales_count = s2.sales_count ∧
          s1.revenue_estimate = s2.revenue_estimate ∧
          s1.revenue_confidence = s2.revenue_confidence ∧
          s1.subcategory = s2.subcategory ∧ s1.description = s2.description ∧
          s1.mixed_review_count = s2.mixed_review_count ∧
          s1.mixed_review_percent = s2.mixed_review_percent ∧
          s1.tags = s2.tags ∧ s1.scraped_at = s2.scraped_at) := by
  intro s1 s2
  simp [ProductSnapshot.compute_hash, SnapshotDigest.mk.injEq]

/-! ## Claim C2 -/

lemma pickLatest_eq_none_iff (l : List ProductSnapshotRow) :
    pickLatest l = none ↔ l = [] := by
  cases l <;> simp [pickLatest]

lemma pickLatest_mem (l : List ProductSnapshotRow) (p : ProductSnapshotRow)
    (h : pickLatest l = some p) : p ∈ l := by
  induction l generalizing p with
  | nil => simp [pickLatest] at h
  | cons r t ih =>
    rw [pickLatest] at h
    rcases ht : pickLatest t with _ | b
    · rw [ht] at h
      simp at h
      simp [h]
    · rw [ht] at h
      simp only [Option.some_inj] at h
      by_cases hlt : b.scraped_at < r.scraped_at
      · rw [if_pos hlt] at h
        simp [h]
      · rw [if_neg hlt] at h
        exact List.mem_cons_of_mem _ (h ▸ ih b ht)

lemma pickLatest_maximal (l : List ProductSnapshotRow) (p : ProductSnapshotRow)
    (h : pickLatest l = some p) :
    ∀ r ∈ l, r.scraped_at ≤ p.scraped_at := by
  induction l generalizing p with
  | nil => simp [pickLatest] at h
  | cons r t ih =>
    rw [pickLatest] at h
    rcases ht : pickLatest t with _ | b
    · rw [ht] at h
      simp only [Option.some_inj] at h
      have hte : t = [] := (pickLatest_eq_none_iff t).1 ht
      subst hte
      simp [← h]
    · rw [ht] at h
      simp only [Option.some_inj] at h
      intro x hx
      rcases List.mem_cons.1 hx with rfl | hxt
      · by_cases hlt : b.scraped_at < x.scraped_at
        · rw [if_pos hlt] at h
          exact h ▸ le_refl _
        · rw [if_neg hlt] at h
          exact h ▸ le_of_not_lt hlt
      · have hxb := ih b ht x hxt
        by_cases hlt : b.scraped_at < r.scraped_at
        · rw [if_pos hlt] at h
          exact h ▸ le_trans hxb (le_of_lt hlt)
        · rw [if_neg hlt] at h
          exact h ▸ hxb

/-- Claim C2: for every snapshot of the requested run, `compute_diffs` emits
one diff row via `diffRowFor`; when no snapshot of the same
(platform, product_id) from a different run with
`scraped_at ≤ current.scraped_at` exists, its `previous_run_id` and all four
numeric deltas are `None` (and `raw_source_changed` is false); otherwise a
most-recent qualifying previous snapshot is used, each delta is
`_delta previous current` — `round(current - previous, 2)` when both sides
are present, exactly `current - previous` whenever that difference is a
2-decimal quantity, `None` when either side is missing — and
`raw_source_changed` is true iff the stored hashes differ. -/
theorem c2_compute_diffs_spec :
    (∀ store rid,
      compute_diffs store rid =
        (store.filter (fun r => r.run_id == rid)).map (diffRowFor store rid)) ∧
    (∀ snap r : ProductSnapshotRow,
      qualifiesAsPrevious snap r = true ↔
        (r.platform = snap.platform ∧ r.product_id = snap.product_id ∧
          r.run_id ≠ snap.run_id ∧ r.scraped_at ≤ snap.scraped_at)) ∧
    (∀ store rid snap, (¬ ∃ r ∈ store, qualifiesAsPrevious snap r = true) →
      (diffRowFor store rid snap).previous_run_id = none ∧
      (diffRowFor store rid snap).price_delta = none ∧
      (diffRowFor store rid snap).rating_count_delta = none ∧
      (diffRowFor store rid snap).sales_count_delta = none ∧
      (diffRowFor store rid snap).revenue_delta = none ∧
      (diffRowFor store rid snap).raw_source_changed = false) ∧
    (∀ store rid snap, (∃ r ∈ store, qualifiesAsPrevious snap r = true) →
      ∃ prev, _previous_snapshot store snap = some prev ∧
        qualifiesAsPrevious snap prev = true ∧
        (∀ r ∈ store, qualifiesAsPrevious snap r = true →
          r.scraped_at ≤ prev.scraped_at) ∧
        (diffRowFor store rid snap).previous_run_id = some prev.run_id ∧
        (diffRowFor store rid snap).price_delta =
          _delta prev.price_amount snap.price_amount ∧
        (diffRowFor store rid snap).rating_count_delta =
          _delta prev.rating_count snap.rating_count ∧
        (diffRowFor store rid snap).sales_count_delta =
          _delta prev.sales_count snap.sales_count ∧
        (diffRowFor store rid snap).revenue_delta =
          _delta prev.revenue_estimate snap.revenue_estimate ∧
        ((diffRowFor store rid snap).raw_source_changed = true ↔
          prev.raw_source_hash ≠ snap.raw_source_hash)) ∧
    (∀ p c : ℚ, _delta (some p) (some c) = some (round2 (c - p))) ∧
    (∀ (p c : ℚ) (m : ℤ), (c - p) * 100 = (m : ℚ) →
      _delta (some p) (some c) = some (c - p)) ∧
    (∀ x, _delta none x = none) ∧ (∀ x, _delta x none = none) := by
  refine ⟨fun store rid => rfl, ?_, ?_, ?_, ?_, ?_, ?_, ?_⟩
  · intro snap r
    simp only [qualifiesAsPrevious, Bool.and_eq_true, beq_iff_eq, bne_iff_ne,
      decide_eq_true_eq]
    tauto
  · intro store rid snap hno
    have hfil : store.filter (qualifiesAsPrevious snap) = [] := by
      rw [List.filter_eq_nil_iff]
      intro a ha hqa
      exact hno ⟨a, ha, hqa⟩
    have hprev : _previous_snapshot store snap = none := by
      rw [_previous_snapshot, hfil]
      rfl
    rw [diffRowFor, hprev]
    exact ⟨rfl, rfl, rfl, rfl, rfl, rfl⟩
  · intro store rid snap hex
    obtain ⟨r0, hr0, hq0⟩ := hex
    have hfil : store.filter (qualifiesAsPrevious snap) ≠ [] := by
      intro hnil
      rw [List.filter_eq_nil_iff] at hnil
      exact hnil r0 hr0 hq0
    rcases hp : _previous_snapshot store snap with _ | prev
    · rw [_previous_snapshot] at hp
      exact absurd ((pickLatest_eq_none_iff _).1 hp) hfil
    · refine ⟨prev, rfl, ?_, ?_, ?_, ?_, ?_, ?_, ?_, ?_⟩
      · rw [_previous_snapshot] at hp
        have := pickLatest_mem _ _ hp
        exact (List.mem_filter.1 this).2
      · intro r hr hqr
        rw [_previous_snapshot] at hp
        exact pickLatest_maximal _ _ hp r (List.mem_filter.2 ⟨hr, hqr⟩)
      · rw [diffRowFor, hp]
      · rw [diffRowFor, hp]
      · rw [diffRowFor, hp]
      · rw [diffRowFor, hp]
      · rw [diffRowFor, hp]
      · rw [diffRowFor, hp]
        simp [bne_iff_ne]
  · intro p c
    rw [_delta, ratSub_eq]
  · intro p c m hm
    rw [_delta, ratSub_eq, round2_exact _ m hm]
  · intro x
    rfl
  · intro x
    cases x <;> rfl

/-- Claim C2 witness: instantiating the specification on a concrete
two-run store (`rowA` then `rowB`) and on the empty store. -/
theorem c2_witness :
    ((¬ ∃ r ∈ ([] : List ProductSnapshotRow), qualifiesAsPrevious rowB r = true) ∧
      (diffRowFor [] "run-b" rowB).previous_run_id = none ∧
      (diffRowFor [] "run-b" rowB).price_delta = none ∧
      (diffRowFor [] "run-b" rowB).rating_count_delta = none ∧
      (diffRowFor [] "run-b" rowB).sales_count_delta = none ∧
      (diffRowFor [] "run-b" rowB).revenue_delta = none ∧
      (diffRowFor [] "run-b" rowB).raw_source_changed = false) ∧
    ((∃ r ∈ storeAB, qualifiesAsPrevious rowB r = true) ∧
      ∃ prev, _previous_snapshot storeAB rowB = some prev ∧
        qualifiesAsPrevious rowB prev = true ∧
        (∀ r ∈ storeAB, qualifiesAsPrevious rowB r = true →
          r.scraped_at ≤ prev.scraped_at) ∧
        (diffRowFor storeAB "run-b" rowB).previous_run_id = some prev.run_id ∧
        (diffRowFor storeAB "run-b" rowB).price_delta =
          _delta prev.price_amount rowB.price_amount ∧
        (diffRowFor storeAB "run-b" rowB).rating_count_delta =
          _delta prev.rating_count rowB.rating_count ∧
        (diffRowFor storeAB "run-b" rowB).sales_count_delta =
          _delta prev.sales_count rowB.sales_count ∧
        (diffRowFor storeAB "run-b" rowB).revenue_delta =
          _delta prev.revenue_estimate rowB.revenue_estimate ∧
        ((diffRowFor storeAB "run-b" rowB).raw_source_changed = true ↔
          prev.raw_source_hash ≠ rowB.raw_source_hash)) := by
  refine ⟨⟨by decide, c2_compute_diffs_spec.2.2.1 [] ("run-b") rowB (by decide)⟩,
    ⟨by decide, c2_compute_diffs_spec.2.2.2.1 storeAB ("run-b") rowB (by decide)⟩⟩

/-! ## Claim C3 -/

/-- Claim C3: the rating component of `parse_rating` is always `None` or a
value in `[0, 5]`; when the matched rating lies outside `[0, 5]` the result
keeps the recovered review count but drops the rating; in particular
`parse_rating "556.0 (1)" = (None, 1)`. -/
theorem c3_parse_rating_spec :
    (∀ (s : String) (r : ℚ) (c : ℕ),
      parse_rating s = some (some r, c) → 0 ≤ r ∧ r ≤ 5) ∧
    (∀ (s : String) (g1 g2 : List Char) (r : ℚ),
      scanPositions ratingMatch1At (ratingCleanup s.toList) = some (g1, g2) →
      pyFloat? g1 = some r → (r < 0 ∨ 5 < r) →
      parse_rating s = some (none, digitsVal g2)) ∧
    parse_rating ("556.0 (1)") = some (none, 1) := by
  refine ⟨?_, ?_, by decide⟩
  · intro s r c h
    unfold parse_rating at h
    split at h
    · simp at h
    · split at h
      · split at h
        · exact absurd h (by simp)
        · split at h
          · exact absurd h (by simp)
          · rename_i rating hout
            simp only [Option.some_inj, Prod.mk.injEq, Option.some_inj] at h
            push_neg at hout
            exact ⟨h.1 ▸ hout.1, h.1 ▸ hout.2⟩
      · split at h
        · split at h
          · exact absurd h (by simp)
          · split at h
            · exact absurd h (by simp)
            · rename_i rating hout
              simp only [Option.some_inj, Prod.mk.injEq, Option.some_inj] at h
              push_neg at hout
              exact ⟨h.1 ▸ hout.1, h.1 ▸ hout.2⟩
        · split at h
          · split at h
            · exact absurd h (by simp)
            · split at h
              · exact absurd h (by simp)
              · rename_i rating hout
                simp only [Option.some_inj, Prod.mk.injEq, Option.some_inj] at h
                push_neg at hout
                exact ⟨h.1 ▸ hout.1, h.1 ▸ hout.2⟩
          · exact absurd h (by simp)
  · intro s g1 g2 r h1 h2 h3
    have hne : ¬ s.toList.isEmpty = true := by
      intro he
      rw [List.isEmpty_iff] at he
      rw [he] at h1
      simp [scanPositions, ratingMatch1At] at h1
    unfold parse_rating
    rw [if_neg hne]
    simp only [h1, h2, if_pos h3]

/-- Claim C3 witness: a valid rating is returned and bounded, and an
out-of-range rating (6) is rejected while its count (1) is kept. -/
theorem c3_witness :
    (parse_rating ("4 (2)") = some (some 4, 2) ∧ (0 ≤ (4 : ℚ) ∧ (4 : ℚ) ≤ 5)) ∧
    (scanPositions ratingMatch1At (ratingCleanup ("6 (1)").toList) =
        some (['6'], ['1']) ∧
      pyFloat? ['6'] = some 6 ∧ ((6 : ℚ) < 0 ∨ 5 < (6 : ℚ)) ∧
      parse_rating ("6 (1)") = some (none, 1)) := by
  refine ⟨⟨by decide, c3_parse_rating_spec.1 ("4 (2)") 4 2 (by decide)⟩,
    by decide, by decide, Or.inr (by norm_num),
    ?_⟩
  have := c3_parse_rating_spec.2.1 ("6 (1)") ['6'] ['1'] 6 (by decide) (by decide)
    (Or.inr (by norm_num))
  simpa using this

/-! ## Claim C4 -/

/-- Claim C4: for every log model, snapshot, diff, category corpus, hours
delta and configuration, `assemble_opportunity`'s `opportunity_score` equals
the 2-decimal rounding of the clamp to `[0, 100]` of the weighted sum of the
velocity, copyability, novelty and price-to-value sub-scores minus the
saturation weight times the saturation penalty; it lies in `[0, 100]` and is
an integer number of hundredths. -/
theorem c4_opportunity_score_spec :
    ∀ (rlog : ℚ → ℚ) (snapshot : SnapMap) (diff : DiffMap)
      (category_titles : List String) (hours_delta : ℚ) (cfg : Config),
      (assemble_opportunity rlog snapshot diff category_titles hours_delta
            cfg).opportunity_score =
          round2 (max 0 (min 100
            (compute_velocity_score diff hours_delta cfg * cfg.weights.velocity +
              compute_copyability_score (snapshot.title.getD "") cfg *
                cfg.weights.copyability +
              compute_novelty_score rlog (snapshot.title.getD "") snapshot.category
                  category_titles cfg * cfg.weights.novelty +
              compute_price_to_value_score snapshot.price_amount snapshot.category
                  cfg * cfg.weights.price_to_value -
              compute_saturation_penalty (snapshot.title.getD "") snapshot.category
                  category_titles cfg * cfg.weights.saturation_penalty))) ∧
        0 ≤ (assemble_opportunity rlog snapshot diff category_titles hours_delta
              cfg).opportunity_score ∧
        (assemble_opportunity rlog snapshot diff category_titles hours_delta
              cfg).opportunity_score ≤ 100 ∧
        ∃ n : ℤ,
          (assemble_opportunity rlog snapshot diff category_titles hours_delta
              cfg).opportunity_score = (n : ℚ) / 100 := by
  intro rlog snapshot diff category_titles hours_delta cfg
  have hproj :
      (assemble_opportunity rlog snapshot diff category_titles hours_delta
          cfg).opportunity_score =
        round2 (pyMax 0 (pyMin 100 (ratSub
          (ratAdd
            (ratAdd
              (ratAdd
                (ratMul (compute_velocity_score diff hours_delta cfg)
                  cfg.weights.velocity)
                (ratMul (compute_copyability_score (snapshot.title.getD "") cfg)
                  cfg.weights.copyability))
              (ratMul (compute_novelty_score rlog (snapshot.title.getD "")
                  snapshot.category category_titles cfg) cfg.weights.novelty))
            (ratMul (compute_price_to_value_score snapshot.price_amount
                snapshot.category cfg) cfg.weights.price_to_value))
          (ratMul (compute_saturation_penalty (snapshot.title.getD "")
              snapshot.category category_titles cfg)
            cfg.weights.saturation_penalty)))) := rfl
  rw [hproj]
  simp only [pyMax_eq, pyMin_eq, ratSub_eq, ratAdd_eq, ratMul_eq]
  refine ⟨trivial, ?_, ?_, ?_⟩
  · exact round2_nonneg _ (le_max_left _ _)
  · exact round2_le_100 _ (max_le (by norm_num) (min_le_left _ _))
  · exact ⟨_, round2_eq _⟩

/-! ## Claim C7 -/

/-- Claim C7 counterexample: with the default configuration, a diff whose
sales-count delta is -10000 over 6 elapsed hours produces a velocity score
below 0, so "a velocity sub-score in the range 0-100" is false as stated. -/
theorem c7_counterexample :
    compute_velocity_score diffNeg 6 defaultConfig < 0 := by
  decide

/-- Claim C7 (amended): `compute_velocity_score` divides the (or-0) rating
and sales deltas by the elapsed hours floored at the configured minimum (6h
by default), caps each per-hour rate against its configured per-hour-for-max
constant, combines the two halves 50/50 and scales to 100 with 2-decimal
rounding; the result never exceeds 100, and it lies in `[0, 100]` whenever
the deltas are non-negative (a negative delta can push it below 0, see the
counterexample). -/
theorem c7_velocity_spec :
    (∀ (diff : DiffMap) (hours_delta : ℚ),
      compute_velocity_score diff hours_delta defaultConfig =
        round2 ((min 1 (diff.rating_count_delta.getD 0 / max hours_delta 6 / 5) *
            (1 / 2) +
          min 1 (diff.sales_count_delta.getD 0 / max hours_delta 6 / 20) *
            (1 / 2)) * 100)) ∧
    (∀ (diff : DiffMap) (hours_delta : ℚ) (cfg : Config),
      compute_velocity_score diff hours_delta cfg ≤ 100) ∧
    (∀ (diff : DiffMap) (hours_delta : ℚ) (cfg : Config),
      0 < cfg.velocity.min_hours →
      0 ≤ diff.rating_count_delta.getD 0 →
      0 ≤ diff.sales_count_delta.getD 0 →
      0 ≤ compute_velocity_score diff hours_delta cfg) := by
  have hform : ∀ (diff : DiffMap) (hours_delta : ℚ) (cfg : Config),
      compute_velocity_score diff hours_delta cfg =
        round2 ((min 1 (diff.rating_count_delta.getD 0 /
            max hours_delta cfg.velocity.min_hours /
            max cfg.velocity.rating_per_hour_for_max 1) * (1 / 2) +
          min 1 (diff.sales_count_delta.getD 0 /
            max hours_delta cfg.velocity.min_hours /
            max cfg.velocity.sales_per_hour_for_max 1) * (1 / 2)) * 100) := by
    intro diff hours_delta cfg
    have : compute_velocity_score diff hours_delta cfg =
        round2 (ratMul (ratAdd
          (ratMul (pyMin 1 (pyDiv (pyDiv (diff.rating_count_delta.getD 0)
            (pyMax hours_delta cfg.velocity.min_hours))
            (pyMax cfg.velocity.rating_per_hour_for_max 1))) (mkRat 1 2))
          (ratMul (pyMin 1 (pyDiv (pyDiv (diff.sales_count_delta.getD 0)
            (pyMax hours_delta cfg.velocity.min_hours))
            (pyMax cfg.velocity.sales_per_hour_for_max 1))) (mkRat 1 2))) 100) := rfl
    rw [this]
    simp only [pyMin_eq, pyMax_eq, pyDiv_eq_div, ratAdd_eq, ratMul_eq, half_val]
  refine ⟨?_, ?_, ?_⟩
  · intro diff hours_delta
    rw [hform]
    rfl
  · intro diff hours_delta cfg
    rw [hform]
    apply round2_le_100
    have h1 : min 1 (diff.rating_count_delta.getD 0 /
        max hours_delta cfg.velocity.min_hours /
        max cfg.velocity.rating_per_hour_for_max 1) ≤ 1 := min_le_left _ _
    have h2 : min 1 (diff.sales_count_delta.getD 0 /
        max hours_delta cfg.velocity.min_hours /
        max cfg.velocity.sales_per_hour_for_max 1) ≤ 1 := min_le_left _ _
    nlinarith
  · intro diff hours_delta cfg hmin hr hs
    rw [hform]
    apply round2_nonneg
    have hhours : 0 < max hours_delta cfg.velocity.min_hours :=
      lt_of_lt_of_le hmin (le_max_right _ _)
    have hcapr : (0 : ℚ) < max cfg.velocity.rating_per_hour_for_max 1 :=
      lt_of_lt_of_le one_pos (le_max_right _ _)
    have hcaps : (0 : ℚ) < max cfg.velocity.sales_per_hour_for_max 1 :=
      lt_of_lt_of_le one_pos (le_max_right _ _)
    have h1 : 0 ≤ min 1 (diff.rating_count_delta.getD 0 /
        max hours_delta cfg.velocity.min_hours /
        max cfg.velocity.rating_per_hour_for_max 1) :=
      le_min (by norm_num) (by positivity)
    have h2 : 0 ≤ min 1 (diff.sales_count_delta.getD 0 /
        max hours_delta cfg.velocity.min_hours /
        max cfg.velocity.sales_per_hour_for_max 1) :=
      le_min (by norm_num) (by positivity)
    nlinarith

/-- Claim C7 witness: the bounds instantiated on a concrete positive diff
(10 ratings and 50 sales over 12 hours, default configuration). -/
theorem c7_witness :
    0 < defaultConfig.velocity.min_hours ∧
    0 ≤ diffPos.rating_count_delta.getD 0 ∧
    0 ≤ diffPos.sales_count_delta.getD 0 ∧
    compute_velocity_score diffPos 12 defaultConfig ≤ 100 ∧
    0 ≤ compute_velocity_score diffPos 12 defaultConfig := by
  refine ⟨by decide, by decide, by decide,
    c7_velocity_spec.2.1 diffPos 12 defaultConfig,
    c7_velocity_spec.2.2 diffPos 12 defaultConfig (by decide) (by decide) (by decide)⟩

/-! ## Claim C5 -/

/-- Claim C5 counterexample: in a pass whose run-level `previous_run_id` is
null, a product whose sales-count delta (1000) far exceeds the default spike
threshold (50) still emits only its single `new_entrant` alert — the
`continue` after the run-level new-entrant branch suppresses the
`velocity_spike` alert, so the claim's spike clause is false as stated. -/
theorem c5_counterexample :
    defaultConfig.velocity.spike_sales_delta <
      ((diffsSpike.lookup (snapAlert.platform, snapAlert.product_id)).getD
        {}).sales_count_delta.getD 0 ∧
    detect_alerts ("run-b") [snapAlert] diffsSpike none defaultConfig =
      [{ run_id := "run-b", platform := some "gumroad", product_id := some "p1",
         alert_type := "new_entrant" }] ∧
    ¬ ∃ a ∈ detect_alerts ("run-b") [snapAlert] diffsSpike none defaultConfig,
        a.alert_type = "velocity_spike" := by
  refine ⟨by decide, by decide, by decide⟩

lemma alertsForSnapshot_expand (run_id : String) (r : String) (cfg : Config)
    (diffs : List ((Option String × Option String) × DiffMap)) (snap : SnapMap) :
    alertsForSnapshot run_id (some r) cfg diffs snap =
      (if cfg.velocity.spike_rating_delta ≤
          ((diffs.lookup (snap.platform, snap.product_id)).getD
            {}).rating_count_delta.getD 0 ∨
        cfg.velocity.spike_sales_delta ≤
          ((diffs.lookup (snap.platform, snap.product_id)).getD
            {}).sales_count_delta.getD 0 then
        [{ run_id := run_id, platform := snap.platform, product_id := snap.product_id,
           alert_type := "velocity_spike" }]
      else []) ++
      (match ((diffs.lookup (snap.platform, snap.product_id)).getD {}).price_delta with
      | none => []
      | some pd =>
        if pd = 0 then []
        else
          let denom := ratSub (snap.price_amount.getD 0) pd
          let pct : Option ℚ := if denom = 0 then none else some (pyDiv pd denom)
          let pctHit : Bool :=
            match pct with
            | none => false
            | some p => !decide (p = 0) && decide (cfg.alerts.price_pct_move ≤ pyAbs p)
          if cfg.alerts.min_price_change ≤ pyAbs pd ∨ pctHit = true then
            [{ run_id := run_id, platform := snap.platform,
               product_id := snap.product_id, alert_type := "pricing_move" }]
          else []) ++
      (if ((diffs.lookup (snap.platform, snap.product_id)).getD
            {}).previous_run_id = none then
        [{ run_id := run_id, platform := snap.platform, product_id := snap.product_id,
           alert_type := "new_entrant" }]
      else []) := rfl

lemma countP_new_entrant_spike (run_id : String) (platform product_id : Option String)
    (c : Prop) [Decidable c] :
    List.countP (fun a => a.alert_type == "new_entrant")
      (if c then
        [{ run_id := run_id, platform := platform, product_id := product_id,
           alert_type := "velocity_spike" } ]
      else ([] : List Alert)) = 0 := by
  split <;> rfl

/-- Claim C5 (amended): `detect_alerts` emits, per snapshot in list order,
the alerts of `alertsForSnapshot`; when the run-level `previous_run_id` is
null every product yields exactly its single `new_entrant` alert and nothing
else; when the run-level `previous_run_id` is present, a product whose
diff-level `previous_run_id` is null yields exactly one `new_entrant` alert,
and a product whose sales-count delta exceeds the configured spike threshold
yields a `velocity_spike` alert in the same pass; a single product may emit
several alert types in one pass (see the concrete two-alert run in the
witness). -/
theorem c5_detect_alerts_spec :
    (∀ (run_id : String) (diffs : List ((Option String × Option String) × DiffMap))
        (prev : Option String) (cfg : Config),
      detect_alerts run_id [] diffs prev cfg = []) ∧
    (∀ (run_id : String) (snap : SnapMap) (snapshots : List SnapMap)
        (diffs : List ((Option String × Option String) × DiffMap))
        (prev : Option String) (cfg : Config),
      detect_alerts run_id (snap :: snapshots) diffs prev cfg =
        alertsForSnapshot run_id prev cfg diffs snap ++
          detect_alerts run_id snapshots diffs prev cfg) ∧
    (∀ (run_id : String) (cfg : Config)
        (diffs : List ((Option String × Option String) × DiffMap)) (snap : SnapMap),
      alertsForSnapshot run_id none cfg diffs snap =
        [{ run_id := run_id, platform := snap.platform, product_id := snap.product_id,
           alert_type := "new_entrant" }]) ∧
    (∀ (run_id r : String) (cfg : Config)
        (diffs : List ((Option String × Option String) × DiffMap)) (snap : SnapMap),
      ((diffs.lookup (snap.platform, snap.product_id)).getD {}).previous_run_id =
          none →
      List.countP (fun a => a.alert_type == "new_entrant")
        (alertsForSnapshot run_id (some r) cfg diffs snap) = 1) ∧
    (∀ (run_id r : String) (cfg : Config)
        (diffs : List ((Option String × Option String) × DiffMap)) (snap : SnapMap),
      cfg.velocity.spike_sales_delta <
          ((diffs.lookup (snap.platform, snap.product_id)).getD
            {}).sales_count_delta.getD 0 →
      ({ run_id := run_id, platform := snap.platform, product_id := snap.product_id,
         alert_type := "velocity_spike" } : Alert) ∈
        alertsForSnapshot run_id (some r) cfg diffs snap) := by
  refine ⟨fun _ _ _ _ => rfl, fun _ _ _ _ _ _ => rfl, fun _ _ _ _ => rfl, ?_, ?_⟩
  · intro run_id r cfg diffs snap hprev
    rw [alertsForSnapshot_expand]
    rw [List.countP_append, List.countP_append]
    rw [countP_new_entrant_spike]
    rw [if_pos hprev]
    have hmid : List.countP (fun a => a.alert_type == "new_entrant")
        (match ((diffs.lookup (snap.platform, snap.product_id)).getD
            {}).price_delta with
        | none => []
        | some pd =>
          if pd = 0 then []
          else
            let denom := ratSub (snap.price_amount.getD 0) pd
            let pct : Option ℚ := if denom = 0 then none else some (pyDiv pd denom)
            let pctHit : Bool :=
              match pct with
              | none => false
              | some p =>
                !decide (p = 0) && decide (cfg.alerts.price_pct_move ≤ pyAbs p)
            if cfg.alerts.min_price_change ≤ pyAbs pd ∨ pctHit = true then
              [{ run_id := run_id, platform := snap.platform,
                 product_id := snap.product_id, alert_type := "pricing_move" }]
            else ([] : List Alert)) = 0 := by
      rcases ((diffs.lookup (snap.platform, snap.product_id)).getD
          {}).price_delta with _ | pd
      · rfl
      · dsimp only
        repeat' split
        all_goals rfl
    rw [hmid]
    rfl
  · intro run_id r cfg diffs snap hspike
    rw [alertsForSnapshot_expand]
    rw [if_pos (Or.inr (le_of_lt hspike))]
    simp

/-- Claim C5 witness: the per-product clauses instantiated on a concrete run
with a previous run id, where the single product emits both a
`velocity_spike` and a `new_entrant` alert in one pass. -/
theorem c5_witness :
    (((diffsSpike.lookup (snapAlert.platform, snapAlert.product_id)).getD
        {}).previous_run_id = none ∧
      List.countP (fun a => a.alert_type == "new_entrant")
        (alertsForSnapshot ("run-b") (some ("run-a")) defaultConfig diffsSpike
          snapAlert) = 1) ∧
    (defaultConfig.velocity.spike_sales_delta <
        ((diffsSpike.lookup (snapAlert.platform, snapAlert.product_id)).getD
          {}).sales_count_delta.getD 0 ∧
      ({ run_id := "run-b", platform := snapAlert.platform,
         product_id := snapAlert.product_id, alert_type := "velocity_spike" } : Alert) ∈
        alertsForSnapshot ("run-b") (some ("run-a")) defaultConfig diffsSpike
          snapAlert) ∧
    detect_alerts ("run-b") [snapAlert] diffsSpike (some ("run-a")) defaultConfig =
      [{ run_id := "run-b", platform := some "gumroad", product_id := some "p1",
         alert_type := "velocity_spike" },
       { run_id := "run-b", platform := some "gumroad", product_id := some "p1",
         alert_type := "new_entrant" }] := by
  refine ⟨⟨by decide, c5_detect_alerts_spec.2.2.2.1 ("run-b") ("run-a") defaultConfig
      diffsSpike snapAlert (by decide)⟩,
    ⟨by decide, c5_detect_alerts_spec.2.2.2.2 ("run-b") ("run-a") defaultConfig
      diffsSpike snapAlert (by decide)⟩,
    by decide⟩

/-! ## Claim C6 -/

/-- Claim C6 counterexample: `parse_price("€20")` does not return the
currency code `"EUR"` — the symbol loop stores the matched non-dollar symbol
itself as the currency, so the tuple in the claim is not the one returned. -/
theorem c6_counterexample :
    parse_price (some ("€20")) ≠
      some { usd := 22, original := "€20", currency := "EUR", is_pwyw := false } := by
  decide

/-- Claim C6 (amended): `parse_price("€20")`, using the static EUR-to-USD
rate 1.10, returns `(22.00, "€20", "€", false)` — amount 22.00 rounded to 2
decimals, the original text, the *symbol* `"€"` as the currency tag (only
the dollar-family symbols are mapped to the letter codes CAD/AUD/USD), and
pay-what-you-want false.  The 1.10 rate is the `CURRENCY_TO_USD` entry for
both `"€"` and `"EUR"`. -/
theorem c6_parse_price_euro :
    parse_price (some ("€20")) =
      some { usd := 22, original := "€20", currency := "€", is_pwyw := false } ∧
    currencyToUsd ("€") = Rat.divInt 11 10 ∧
    CURRENCY_TO_USD.lookup ("EUR") = some (Rat.divInt 11 10) ∧
    round2 (ratMul 20 (Rat.divInt 11 10)) = 22 := by
  refine ⟨by decide, by decide, by decide, by decide⟩

/-! ## Claim C9 -/

/-- Claim C9: when the first scrape attempt returns zero products,
`_scrape_with_retry` records one failure on the adaptive delay config,
returns the empty product list together with the distinguished
zero-products/possible-block debug result, and performs no further attempt
and raises nothing — the result is the same for every oracle whose first
attempt returns zero products, whatever the later attempts would do. -/
theorem c9_zero_products_spec :
    ∀ {α : Type} (scrape : ℕ → ScrapeOutcome α) (url : String)
      (cfg : AdaptiveDelayConfig) (max_retries : ℕ),
      scrape 0 = ScrapeOutcome.ok ([] : List α) → 0 < max_retries →
      _scrape_with_retry scrape url cfg max_retries =
        ([], some (DebugResult.zeroProducts url), cfg.record_failure) ∧
      (cfg.record_failure).consecutive_failures = cfg.consecutive_failures + 1 := by
  intro α scrape url cfg max_retries h hmr
  obtain ⟨m, rfl⟩ : ∃ m, max_retries = m + 1 := ⟨max_retries - 1, by omega⟩
  exact ⟨by simp [_scrape_with_retry, scrapeRetryGo, h], rfl⟩

/-- Claim C9 witness: a concrete oracle whose first attempt yields zero
products, with the source's default of 3 retries. -/
theorem c9_witness :
    (fun _ : ℕ => ScrapeOutcome.ok ([] : List ℕ)) 0 =
        ScrapeOutcome.ok ([] : List ℕ) ∧
    (0 : ℕ) < 3 ∧
    _scrape_with_retry (fun _ : ℕ => ScrapeOutcome.ok ([] : List ℕ))
        ("https://gumroad.com/design") {} 3 =
      ([], some (DebugResult.zeroProducts ("https://gumroad.com/design")),
        AdaptiveDelayConfig.record_failure {}) := by
  refine ⟨rfl, by decide, ?_⟩
  exact (c9_zero_products_spec (fun _ : ℕ => ScrapeOutcome.ok ([] : List ℕ))
    ("https://gumroad.com/design") {} 3 rfl (by decide)).1

/-! ## Claim C10 -/

/-- Claim C10: `None` and the exact case-insensitive literals
`"free"`, `"$0"`, `"0"` (and the empty string) short-circuit `parse_price`
to the canonical tuple `(0.0, "Free", "USD", False)` before any stripping,
while whitespace-padded variants take the general path: `" free "` keeps its
stripped text as the original and gets currency `"UNKNOWN"`, `" $0 "` parses
as a zero-dollar amount. -/
theorem c10_parse_price_special_literals :
    parse_price none = some freeResult ∧
    parse_price (some ("")) = some freeResult ∧
    (∀ s : String, pyLower s.toList ∈ priceSpecialLiterals →
      parse_price (some s) = some freeResult) ∧
    freeResult = { usd := 0, original := "Free", currency := "USD", is_pwyw := false } ∧
    parse_price (some (" free ")) =
      some { usd := 0, original := "free", currency := "UNKNOWN", is_pwyw := false } ∧
    parse_price (some (" $0 ")) =
      some { usd := 0, original := "$0", currency := "USD", is_pwyw := false } := by
  refine ⟨rfl, by decide, ?_, rfl, by decide, by decide⟩
  intro s h
  unfold parse_price
  dsimp only
  rw [if_pos (by simp only [Bool.or_eq_true, decide_eq_true_eq, List.isEmpty_iff]; exact Or.inr h)]

/-- Claim C10 witness: the special case instantiated on the uppercase
variant `"FREE"`. -/
theorem c10_witness :
    pyLower ("FREE").toList ∈ priceSpecialLiterals ∧
    parse_price (some ("FREE")) = some freeResult := by
  exact ⟨by decide, c10_parse_price_special_literals.2.2.1 ("FREE") (by decide)⟩

/-! ## Claim C8 -/

lemma dropWhile_idem (p : Char → Bool) (l : List Char) :
    (l.dropWhile p).dropWhile p = l.dropWhile p := by
  induction l with
  | nil => rfl
  | cons a t ih =>
    rw [List.dropWhile_cons]
    split
    · exact ih
    · rw [List.dropWhile_cons]
      split
      · simp_all
      · rfl

lemma dropWhile_eq_self_of_append (p : Char → Bool) (B w : List Char)
    (h : (B ++ w).dropWhile p = B ++ w) : B.dropWhile p = B := by
  cases B with
  | nil => rfl
  | cons b t =>
    rw [List.cons_append, List.dropWhile_cons] at h
    rw [List.dropWhile_cons]
    split
    · rename_i hp
      rw [if_pos hp] at h
      have hlen := (List.dropWhile_suffix (l := t ++ w) p).length_le
      have := congrArg List.length h
      simp [List.length_append] at this hlen
      omega
    · rfl

lemma pyStrip_prefix_decomp (l : List Char) :
    ∃ w, l.dropWhile isPySpace = pyStrip l ++ w := by
  refine ⟨(((l.dropWhile isPySpace).reverse.takeWhile isPySpace)).reverse, ?_⟩
  rw [pyStrip]
  rw [← List.reverse_append]
  rw [List.takeWhile_append_dropWhile]
  rw [List.reverse_reverse]

lemma pyStrip_idem (l : List Char) : pyStrip (pyStrip l) = pyStrip l := by
  have h1 : (pyStrip l).dropWhile isPySpace = pyStrip l := by
    obtain ⟨w, hw⟩ := pyStrip_prefix_decomp l
    exact dropWhile_eq_self_of_append isPySpace (pyStrip l) w
      (by rw [← hw]; exact dropWhile_idem _ _)
  have h2 : (pyStrip l).reverse.dropWhile isPySpace = (pyStrip l).reverse := by
    rw [pyStrip, List.reverse_reverse]
    exact dropWhile_idem _ _
  rw [pyStrip, h1, h2, List.reverse_reverse]

lemma pyFloat_nonneg (l : List Char) (q : ℚ) (h : pyFloat? l = some q) : 0 ≤ q := by
  unfold pyFloat? at h
  split at h
  · simp only [Option.some_inj] at h
    rw [← h, Rat.mkRat_eq_divInt, Rat.divInt_eq_div]
    positivity
  · exact absurd h (by simp)

lemma lookup_getD_nonneg (L : List (String × ℚ)) (hL : ∀ p ∈ L, 0 ≤ p.2)
    (c : String) (d : ℚ) (hd : 0 ≤ d) : 0 ≤ (L.lookup c).getD d := by
  induction L with
  | nil => simpa using hd
  | cons a t ih =>
    rw [List.lookup]
    split
    · exact hL a (List.mem_cons_self a t)
    · exact ih (fun p hp => hL p (List.mem_cons_of_mem a hp))

lemma currencyToUsd_nonneg (c : String) : 0 ≤ currencyToUsd c := by
  refine lookup_getD_nonneg CURRENCY_TO_USD ?_ c 1 (by norm_num)
  decide

lemma parsePriceSubbed_usd_nonneg (l l2 : List Char) (r : PriceResult)
    (h : parsePriceSubbed l l2 = some r) : 0 ≤ r.usd := by
  unfold parsePriceSubbed at h
  split at h
  case h_1 =>
    simp only [Option.some_inj] at h
    rw [← h]
  case h_2 =>
    split at h
    · exact absurd h (by simp)
    · rename_i numTxt v hfloat
      simp only [Option.some_inj] at h
      rw [← h]
      have hv : 0 ≤ v := pyFloat_nonneg _ _ hfloat
      refine round2_nonneg _ ?_
      rw [ratMul_eq]
      exact mul_nonneg hv (currencyToUsd_nonneg _)

lemma parsePriceCore_usd_nonneg (l : List Char) (r : PriceResult)
    (h : parsePriceCore l = some r) : 0 ≤ r.usd :=
  parsePriceSubbed_usd_nonneg l _ r h

lemma parsePriceSubbed_original (l l2 : List Char) (r : PriceResult)
    (h : parsePriceSubbed l l2 = some r) : r.original = String.mk l := by
  unfold parsePriceSubbed at h
  split at h
  · simp only [Option.some_inj] at h
    rw [← h]
  · split at h
    · exact absurd h (by simp)
    · simp only [Option.some_inj] at h
      rw [← h]

lemma parsePriceCore_original (l : List Char) (r : PriceResult)
    (h : parsePriceCore l = some r) : r.original = String.mk l :=
  parsePriceSubbed_original l _ r h

/-- Claim C8 counterexample: `parse_price(" $0 ")` returns original text
`"$0"`, but re-parsing `"$0"` hits the pre-strip special case and returns
the canonical `Free` tuple, so
`parse_price(parse_price(x).original) ≠ parse_price(x)` at `x = " $0 "`. -/
theorem c8_counterexample :
    parse_price (some (" $0 ")) =
      some { usd := 0, original := "$0", currency := "USD", is_pwyw := false } ∧
    parse_price (some ("$0")) = some freeResult ∧
    some freeResult ≠
      some ({ usd := 0, original := "$0", currency := "USD",
              is_pwyw := false } : PriceResult) := by
  refine ⟨by decide, by decide, by decide⟩

/-- Claim C8 (amended): whenever `parse_price` returns, the USD amount is
non-negative; re-parsing the returned original text reproduces the same
result except when the input strips to the empty string or strips to one of
the special literals `free`/`$0`/`0` without being one itself (there the
re-parse takes the pre-strip special case, as the counterexample shows); if
the input itself is empty or a special literal, re-parsing the returned
`"Free"` is again idempotent. -/
theorem c8_parse_price_spec :
    (∀ (x : String) (r : PriceResult),
      parse_price (some x) = some r → 0 ≤ r.usd) ∧
    (∀ (x : String) (r : PriceResult),
      parse_price (some x) = some r →
      x.toList ≠ [] → pyLower x.toList ∉ priceSpecialLiterals →
      pyStrip x.toList ≠ [] → pyLower (pyStrip x.toList) ∉ priceSpecialLiterals →
      parse_price (some r.original) = some r) ∧
    (∀ (x : String) (r : PriceResult),
      parse_price (some x) = some r →
      (x.toList = [] ∨ pyLower x.toList ∈ priceSpecialLiterals) →
      parse_price (some r.original) = some r) := by
  refine ⟨?_, ?_, ?_⟩
  · intro x r h
    unfold parse_price at h
    dsimp only at h
    split at h
    · simp only [Option.some_inj] at h
      rw [← h]
      norm_num [freeResult]
    · exact parsePriceCore_usd_nonneg _ _ h
  · intro x r h hne hnl hsne hsnl
    have hc1 : ¬ (x.toList.isEmpty || decide (pyLower x.toList ∈ priceSpecialLiterals)) = true := by
      simp only [Bool.or_eq_true, decide_eq_true_eq, List.isEmpty_iff]
      push_neg
      exact ⟨hne, hnl⟩
    unfold parse_price at h
    dsimp only at h
    rw [if_neg hc1] at h
    have horig : r.original = String.mk (pyStrip x.toList) :=
      parsePriceCore_original _ _ h
    have hc2 : ¬ ((String.mk (pyStrip x.toList)).toList.isEmpty ||
        decide (pyLower (String.mk (pyStrip x.toList)).toList ∈ priceSpecialLiterals)) = true := by
      simp only [Bool.or_eq_true, decide_eq_true_eq, List.isEmpty_iff]
      push_neg
      exact ⟨hsne, hsnl⟩
    rw [horig]
    unfold parse_price
    dsimp only
    rw [if_neg hc2]
    show parsePriceCore (pyStrip (pyStrip x.toList)) = some r
    rw [pyStrip_idem]
    exact h
  · intro x r h hsp
    have hc : (x.toList.isEmpty || decide (pyLower x.toList ∈ priceSpecialLiterals)) = true := by
      simp only [Bool.or_eq_true, decide_eq_true_eq, List.isEmpty_iff]
      exact hsp
    unfold parse_price at h
    dsimp only at h
    rw [if_pos hc] at h
    simp only [Option.some_inj] at h
    rw [← h]
    decide

/-- Claim C8 witness: `"$5"` parses to a non-negative amount and re-parsing
its original text `"$5"` reproduces the same tuple. -/
theorem c8_witness :
    (parse_price (some ("$5")) =
        some { usd := 5, original := "$5", currency := "USD", is_pwyw := false } ∧
      0 ≤ ({ usd := 5, original := "$5", currency := "USD",
             is_pwyw := false } : PriceResult).usd) ∧
    (("$5").toList ≠ [] ∧ pyLower ("$5").toList ∉ priceSpecialLiterals ∧
      pyStrip ("$5").toList ≠ [] ∧
      pyLower (pyStrip ("$5").toList) ∉ priceSpecialLiterals ∧
      parse_price
          (some ({ usd := 5, original := "$5", currency := "USD",
                   is_pwyw := false } : PriceResult).original) =
        some { usd := 5, original := "$5", currency := "USD", is_pwyw := false }) := by
  refine ⟨⟨by decide, c8_parse_price_spec.1 ("$5") _ (by decide)⟩,
    by decide, by decide, by decide, by decide,
    c8_parse_price_spec.2.1 ("$5") _ (by decide) (by decide) (by decide)
      (by decide) (by decide)⟩

end Gumroad
